import Mathlib

/- Verification development for the rubiks-cube-solver repository.

   Shallow embedding of `src/rubiks_cube.py` (classes `CubeStateTracker` and
   `RubiksCube`) and `src/solver.py` (class `RubiksCubeSolver`).

   Conventions used throughout:
   * Python move tokens are plain strings ("U", "U'", "U2", "M", ...); they are
     embedded as `String` values.  The prime mark is the character with code 39,
     written `Char.ofNat 39` below.
   * A Python fixed-length list that is mutated in place is embedded as a total
     function from an index type; an in-place element assignment becomes a
     function update.
   * The N by N sticker matrices of the six faces are embedded as functions
     `ℕ → ℕ → ℕ` (row, column, color id) together with the cube size `n`;
     cells with indices outside `n` do not exist in the source and are left
     untouched by every operation.
   * Sequential Python loops whose iterations write cells that are only read
     before being written (checked per move below) are embedded as one
     simultaneous assignment.
   * Unbounded recursion in the source is embedded with an explicit fuel
     argument; returning `none` means the Python call would never return
     (it would die with a `RecursionError`). -/

namespace Rubiks

/-! ## Move token strings -/

def apos : Char := Char.ofNat 39

def chr2 : Char := '2'

def tokU : String := "U"

def tokD : String := "D"

def tokR : String := "R"

def tokL : String := "L"

def tokF : String := "F"

def tokB : String := "B"

def tokM : String := "M"

def tokE : String := "E"

def tokS : String := "S"

def tokUp : String := tokU.push apos

def tokDp : String := tokD.push apos

def tokRp : String := tokR.push apos

def tokLp : String := tokL.push apos

def tokFp : String := tokF.push apos

def tokBp : String := tokB.push apos

def tokU2 : String := "U2"

def tokD2 : String := "D2"

def tokR2 : String := "R2"

def tokL2 : String := "L2"

def tokF2 : String := "F2"

def tokB2 : String := "B2"

def tokM2 : String := "M2"

/-- Embedding of Python `move.endswith(c)` for a one-character suffix `c`:
the last character of the string equals `c`. -/
def strEndsWithChar (s : String) (c : Char) : Bool :=
  s.data.getLast? = some c

/-- Embedding of Python `move[0]` used as a one-character string. -/
def strHead1 (s : String) : String :=
  String.mk (s.data.take 1)

/-! ## CubeStateTracker (src/rubiks_cube.py lines 10-186) -/

/-- One tracked piece: `{'id': ..., 'position': ..., 'orientation': ...}`. -/
structure Piece where
  pid : String
  position : ℕ
  orientation : ℕ
  deriving DecidableEq

/-- Tracker state: the 12-entry `edges` list and the 8-entry `corners` list. -/
structure Tracker where
  edges : Fin 12 → Piece
  corners : Fin 8 → Piece

def edgeIds : List String :=
  ["UF", "UR", "UB", "UL", "DF", "DR", "DB", "DL", "FR", "FL", "BR", "BL"]

def cornerIds : List String :=
  ["UFR", "UFL", "UBL", "UBR", "DFR", "DFL", "DBL", "DBR"]

/-- `solved_edges`: entry `i` is `{'id': edgeIds[i], 'position': i, 'orientation': 0}`. -/
def solvedEdges : Fin 12 → Piece := fun i => ⟨edgeIds.getD i.val "", i.val, 0⟩

/-- `solved_corners`: entry `i` is `{'id': cornerIds[i], 'position': i, 'orientation': 0}`. -/
def solvedCorners : Fin 8 → Piece := fun i => ⟨cornerIds.getD i.val "", i.val, 0⟩

def solvedTracker : Tracker := ⟨solvedEdges, solvedCorners⟩

/-- The effect of one length-2 "cycle" entry in `_permute_pieces`:
`temp = pieces[a]; pieces[a] = pieces[b]; pieces[b] = temp`, i.e. a swap. -/
def swapFn {n : ℕ} {α : Type} (f : Fin n → α) (a b : Fin n) : Fin n → α :=
  fun i => if i = a then f b else if i = b then f a else f i

/-- `_permute_pieces(pieces, cycles)`: the table entries are all pairs, and the
source applies each pair as the swap above, in list order. -/
def permutePieces {n : ℕ} (f : Fin n → Piece) (cycles : List (Fin n × Fin n)) :
    Fin n → Piece :=
  cycles.foldl (fun g p => swapFn g p.1 p.2) f

/-- `self.edges[idx]['orientation'] ^= 1`. -/
def flipEdgeAt (f : Fin 12 → Piece) (idx : Fin 12) : Fin 12 → Piece :=
  Function.update f idx ⟨(f idx).pid, (f idx).position, (f idx).orientation ^^^ 1⟩

/-- `self.corners[idx]['orientation'] = (self.corners[idx]['orientation'] + delta) % 3`. -/
def bumpCornerAt (f : Fin 8 → Piece) (p : Fin 8 × ℕ) : Fin 8 → Piece :=
  Function.update f p.1 ⟨(f p.1).pid, (f p.1).position, ((f p.1).orientation + p.2) % 3⟩

/-- One entry of the `move_tables` dict. -/
structure MoveTable where
  edges : List (Fin 12 × Fin 12)
  corners : List (Fin 8 × Fin 8)
  edgeOrientFlip : List (Fin 12)
  cornerOrientChange : List (Fin 8 × ℕ)
  deriving DecidableEq

def uTable : MoveTable :=
  ⟨[(0, 1), (1, 2), (2, 3), (3, 0)], [(0, 1), (1, 2), (2, 3), (3, 0)], [], []⟩

def dTable : MoveTable :=
  ⟨[(4, 7), (7, 6), (6, 5), (5, 4)], [(4, 5), (5, 6), (6, 7), (7, 4)], [], []⟩

def rTable : MoveTable :=
  ⟨[(1, 8), (8, 5), (5, 10), (10, 1)], [(0, 4), (4, 7), (7, 3), (3, 0)], [],
   [(0, 1), (4, 2), (7, 1), (3, 2)]⟩

def lTable : MoveTable :=
  ⟨[(3, 11), (11, 7), (7, 9), (9, 3)], [(1, 2), (2, 6), (6, 5), (5, 1)], [],
   [(1, 2), (2, 1), (6, 2), (5, 1)]⟩

def fTable : MoveTable :=
  ⟨[(0, 9), (9, 4), (4, 8), (8, 0)], [(0, 1), (1, 5), (5, 4), (4, 0)], [0, 9, 4, 8],
   [(0, 2), (1, 1), (5, 2), (4, 1)]⟩

def bTable : MoveTable :=
  ⟨[(2, 10), (10, 6), (6, 11), (11, 2)], [(3, 2), (2, 6), (6, 7), (7, 3)], [2, 10, 6, 11],
   [(3, 1), (2, 2), (6, 1), (7, 2)]⟩

/-- The `move_tables` dict lookup (`move not in self.move_tables` gives `none`). -/
def moveTables (m : String) : Option MoveTable :=
  if m = tokU then some uTable
  else if m = tokD then some dTable
  else if m = tokR then some rTable
  else if m = tokL then some lTable
  else if m = tokF then some fTable
  else if m = tokB then some bTable
  else none

/-- The body of `_apply_single_move` once the move's table is found: permute
edges, permute corners, flip the listed edge orientations, bump the listed
corner orientations. -/
def applyTable (tbl : MoveTable) (t : Tracker) : Tracker :=
  let e1 := permutePieces t.edges tbl.edges
  let c1 := permutePieces t.corners tbl.corners
  let e2 := tbl.edgeOrientFlip.foldl flipEdgeAt e1
  let c2 := tbl.cornerOrientChange.foldl bumpCornerAt c1
  ⟨e2, c2⟩

/-- `_apply_single_move`: unknown moves do nothing. -/
def applySingleMove (m : String) (t : Tracker) : Tracker :=
  match moveTables m with
  | none => t
  | some tbl => applyTable tbl t

/-- `apply_move`: a token ending in the prime mark is three base applications,
a token ending in `2` is two, anything else is a single application. -/
def applyMove (m : String) (t : Tracker) : Tracker :=
  if strEndsWithChar m apos then
    applySingleMove (strHead1 m) (applySingleMove (strHead1 m) (applySingleMove (strHead1 m) t))
  else if strEndsWithChar m chr2 then
    applySingleMove (strHead1 m) (applySingleMove (strHead1 m) t)
  else
    applySingleMove m t

def edgePositionsList (t : Tracker) : List ℕ :=
  List.ofFn (fun i => (t.edges i).position)

def cornerPositionsList (t : Tracker) : List ℕ :=
  List.ofFn (fun i => (t.corners i).position)

def edgeOrientationSum (t : Tracker) : ℕ :=
  (List.ofFn (fun i => (t.edges i).orientation)).sum

def cornerOrientationSum (t : Tracker) : ℕ :=
  (List.ofFn (fun i => (t.corners i).orientation)).sum

def msgEdgeDup : String := "Duplicate or missing edge positions detected!"

def msgCornerDup : String := "Duplicate or missing corner positions detected!"

def msgEdgeParity : String := "Invalid edge orientation parity!"

def msgCornerParity : String := "Invalid corner orientation parity!"

/-- `validate_state`: the four checks in source order; `raise ValueError(msg)`
is embedded as `Except.error msg` (Python `len(set(xs))` is the embedded
list's `toFinset.card`). -/
def validateState (t : Tracker) : Except String Unit :=
  if (edgePositionsList t).toFinset.card ≠ 12 then Except.error msgEdgeDup
  else if (cornerPositionsList t).toFinset.card ≠ 8 then Except.error msgCornerDup
  else if edgeOrientationSum t % 2 ≠ 0 then Except.error msgEdgeParity
  else if cornerOrientationSum t % 3 ≠ 0 then Except.error msgCornerParity
  else Except.ok ()

/-! ## RubiksCube facelet grid (src/rubiks_cube.py lines 248-612)

    Face order follows `FACE_NAMES = ['FRONT','BACK','RIGHT','LEFT','UP','DOWN']`
    (indices 0..5); the solved cube colors every cell of face `i` with id `i`. -/

inductive Face
  | FRONT
  | BACK
  | RIGHT
  | LEFT
  | UP
  | DOWN
  deriving DecidableEq

def faceColor : Face → ℕ
  | .FRONT => 0
  | .BACK => 1
  | .RIGHT => 2
  | .LEFT => 3
  | .UP => 4
  | .DOWN => 5

def faceList : List Face := [.FRONT, .BACK, .RIGHT, .LEFT, .UP, .DOWN]

def Grid : Type := Face → ℕ → ℕ → ℕ

/-- `create_solved_cube`: each face filled with its own color id. -/
def solvedGrid : Grid := fun f _ _ => faceColor f

/-- `rotate_face_clockwise`: `new[i][j] = old[size-1-j][i]` for in-range cells. -/
def rotCW (n : ℕ) (m : ℕ → ℕ → ℕ) : ℕ → ℕ → ℕ :=
  fun i j => if i < n ∧ j < n then m (n - 1 - j) i else m i j

/-- `move_U` on the grid: rotate UP, cycle the four top rows
Front ← Right ← Back ← Left ← Front. -/
def gridU (n : ℕ) (g : Grid) : Grid := fun f i j =>
  match f with
  | .UP => rotCW n (g .UP) i j
  | .FRONT => if i = 0 ∧ j < n then g .RIGHT 0 j else g .FRONT i j
  | .RIGHT => if i = 0 ∧ j < n then g .BACK 0 j else g .RIGHT i j
  | .BACK => if i = 0 ∧ j < n then g .LEFT 0 j else g .BACK i j
  | .LEFT => if i = 0 ∧ j < n then g .FRONT 0 j else g .LEFT i j
  | .DOWN => g .DOWN i j

/-- `move_D` on the grid: rotate DOWN, cycle the four bottom rows
Front ← Left ← Back ← Right ← Front. -/
def gridD (n : ℕ) (g : Grid) : Grid := fun f i j =>
  match f with
  | .DOWN => rotCW n (g .DOWN) i j
  | .FRONT => if i = n - 1 ∧ j < n then g .LEFT (n - 1) j else g .FRONT i j
  | .LEFT => if i = n - 1 ∧ j < n then g .BACK (n - 1) j else g .LEFT i j
  | .BACK => if i = n - 1 ∧ j < n then g .RIGHT (n - 1) j else g .BACK i j
  | .RIGHT => if i = n - 1 ∧ j < n then g .FRONT (n - 1) j else g .RIGHT i j
  | .UP => g .UP i j

/-- `move_R` on the grid.  The source loop writes, for each `i < n`:
`front[i][n-1] ← down[i][n-1]`, `down[i][n-1] ← back[n-1-i][0]`,
`back[n-1-i][0] ← up[i][n-1]`, `up[i][n-1] ← old front[i][n-1]`;
every read happens before the same cell is written, so the loop equals this
simultaneous assignment. -/
def gridR (n : ℕ) (g : Grid) : Grid := fun f i j =>
  match f with
  | .RIGHT => rotCW n (g .RIGHT) i j
  | .FRONT => if j = n - 1 ∧ i < n then g .DOWN i (n - 1) else g .FRONT i j
  | .DOWN => if j = n - 1 ∧ i < n then g .BACK (n - 1 - i) 0 else g .DOWN i j
  | .BACK => if j = 0 ∧ i < n then g .UP (n - 1 - i) (n - 1) else g .BACK i j
  | .UP => if j = n - 1 ∧ i < n then g .FRONT i (n - 1) else g .UP i j
  | .LEFT => g .LEFT i j

/-- `move_L` on the grid, as the simultaneous form of the source loop:
`front[i][0] ← up[i][0]`, `up[i][0] ← back[n-1-i][n-1]`,
`back[i][n-1] ← down[n-1-i][0]`, `down[i][0] ← old front[i][0]`. -/
def gridL (n : ℕ) (g : Grid) : Grid := fun f i j =>
  match f with
  | .LEFT => rotCW n (g .LEFT) i j
  | .FRONT => if j = 0 ∧ i < n then g .UP i 0 else g .FRONT i j
  | .UP => if j = 0 ∧ i < n then g .BACK (n - 1 - i) (n - 1) else g .UP i j
  | .BACK => if j = n - 1 ∧ i < n then g .DOWN (n - 1 - i) 0 else g .BACK i j
  | .DOWN => if j = 0 ∧ i < n then g .FRONT i 0 else g .DOWN i j
  | .RIGHT => g .RIGHT i j

/-- `move_F` on the grid, as the simultaneous form of the source loop:
`up[n-1][i] ← left[n-1-i][n-1]`, `left[i][n-1] ← down[0][i]`,
`down[0][i] ← right[n-1-i][0]`, `right[i][0] ← old up[n-1][i]`. -/
def gridF (n : ℕ) (g : Grid) : Grid := fun f i j =>
  match f with
  | .FRONT => rotCW n (g .FRONT) i j
  | .UP => if i = n - 1 ∧ j < n then g .LEFT (n - 1 - j) (n - 1) else g .UP i j
  | .LEFT => if j = n - 1 ∧ i < n then g .DOWN 0 i else g .LEFT i j
  | .DOWN => if i = 0 ∧ j < n then g .RIGHT (n - 1 - j) 0 else g .DOWN i j
  | .RIGHT => if j = 0 ∧ i < n then g .UP (n - 1) i else g .RIGHT i j
  | .BACK => g .BACK i j

/-- `move_B` on the grid, as the simultaneous form of the source loop:
`up[0][i] ← right[n-1-i][n-1]`, `right[i][n-1] ← down[n-1][i]`,
`down[n-1][i] ← left[n-1-i][0]`, `left[i][0] ← old up[0][n-1-i]`
(the last assignment reads `temp[n-1-i]`). -/
def gridB (n : ℕ) (g : Grid) : Grid := fun f i j =>
  match f with
  | .BACK => rotCW n (g .BACK) i j
  | .UP => if i = 0 ∧ j < n then g .RIGHT (n - 1 - j) (n - 1) else g .UP i j
  | .RIGHT => if j = n - 1 ∧ i < n then g .DOWN (n - 1) i else g .RIGHT i j
  | .DOWN => if i = n - 1 ∧ j < n then g .LEFT (n - 1 - j) 0 else g .DOWN i j
  | .LEFT => if j = 0 ∧ i < n then g .UP 0 (n - 1 - i) else g .LEFT i j
  | .FRONT => g .FRONT i j

/-- `move_M` middle-slice grid effect for odd sizes (`middle = n // 2`):
like an L-prime on the middle columns. -/
def sliceMGrid (n : ℕ) (g : Grid) : Grid := fun f i j =>
  match f with
  | .FRONT => if j = n / 2 ∧ i < n then g .UP i (n / 2) else g .FRONT i j
  | .UP => if j = n / 2 ∧ i < n then g .BACK (n - 1 - i) (n / 2) else g .UP i j
  | .BACK => if j = n / 2 ∧ i < n then g .DOWN (n - 1 - i) (n / 2) else g .BACK i j
  | .DOWN => if j = n / 2 ∧ i < n then g .FRONT i (n / 2) else g .DOWN i j
  | .RIGHT => g .RIGHT i j
  | .LEFT => g .LEFT i j

/-- `move_E` equatorial-slice grid effect for odd sizes: like a D on the
middle rows, Front ← Left ← Back ← Right ← Front. -/
def sliceEGrid (n : ℕ) (g : Grid) : Grid := fun f i j =>
  match f with
  | .FRONT => if i = n / 2 ∧ j < n then g .LEFT (n / 2) j else g .FRONT i j
  | .LEFT => if i = n / 2 ∧ j < n then g .BACK (n / 2) j else g .LEFT i j
  | .BACK => if i = n / 2 ∧ j < n then g .RIGHT (n / 2) j else g .BACK i j
  | .RIGHT => if i = n / 2 ∧ j < n then g .FRONT (n / 2) j else g .RIGHT i j
  | .UP => g .UP i j
  | .DOWN => g .DOWN i j

/-- `move_S` standing-slice grid effect for odd sizes, as the simultaneous
form of the source loop. -/
def sliceSGrid (n : ℕ) (g : Grid) : Grid := fun f i j =>
  match f with
  | .UP => if i = n / 2 ∧ j < n then g .LEFT (n - 1 - j) (n / 2) else g .UP i j
  | .LEFT => if j = n / 2 ∧ i < n then g .DOWN (n / 2) i else g .LEFT i j
  | .DOWN => if i = n / 2 ∧ j < n then g .RIGHT (n - 1 - j) (n / 2) else g .DOWN i j
  | .RIGHT => if j = n / 2 ∧ i < n then g .UP (n / 2) i else g .RIGHT i j
  | .FRONT => g .FRONT i j
  | .BACK => g .BACK i j

/-! ## RubiksCube instance state and move methods -/

/-- A `RubiksCube` instance: `size`, facelet grid `cube`, `move_history`, and
the `tracker` (present exactly when the cube was created with size 3). -/
structure RCube where
  size : ℕ
  grid : Grid
  history : List String
  tracker : Option Tracker

/-- `RubiksCube.__init__(size)`. -/
def createRCube (size : ℕ) : RCube :=
  ⟨size, solvedGrid, [], if size = 3 then some solvedTracker else none⟩

/-- Shared shape of the six base move methods: update the grid, append the
token to move history, and (when a tracker exists) forward the token to it. -/
def baseMoveStep (tok : String) (gmove : ℕ → Grid → Grid) (c : RCube) : RCube :=
  ⟨c.size, gmove c.size c.grid, c.history ++ [tok], c.tracker.map (applyMove tok)⟩

def moveU (c : RCube) : RCube := baseMoveStep tokU gridU c

def moveD (c : RCube) : RCube := baseMoveStep tokD gridD c

def moveR (c : RCube) : RCube := baseMoveStep tokR gridR c

def moveL (c : RCube) : RCube := baseMoveStep tokL gridL c

def moveF (c : RCube) : RCube := baseMoveStep tokF gridF c

def moveB (c : RCube) : RCube := baseMoveStep tokB gridB c

/-- Shared shape of the six prime move methods: three base calls, then
`move_history = move_history[:-3]` followed by appending the prime token. -/
def primeMoveStep (tok : String) (base : RCube → RCube) (c : RCube) : RCube :=
  let c3 := base (base (base c))
  ⟨c3.size, c3.grid, (c3.history.take (c3.history.length - 3)) ++ [tok], c3.tracker⟩

def moveUprime (c : RCube) : RCube := primeMoveStep tokUp moveU c

def moveDprime (c : RCube) : RCube := primeMoveStep tokDp moveD c

def moveRprime (c : RCube) : RCube := primeMoveStep tokRp moveR c

def moveLprime (c : RCube) : RCube := primeMoveStep tokLp moveL c

def moveFprime (c : RCube) : RCube := primeMoveStep tokFp moveF c

def moveBprime (c : RCube) : RCube := primeMoveStep tokBp moveB c

/-- Shared shape of the six double move methods: two base calls, then
`move_history = move_history[:-2]` followed by appending the double token. -/
def doubleMoveStep (tok : String) (base : RCube → RCube) (c : RCube) : RCube :=
  let c2 := base (base c)
  ⟨c2.size, c2.grid, (c2.history.take (c2.history.length - 2)) ++ [tok], c2.tracker⟩

def moveU2 (c : RCube) : RCube := doubleMoveStep tokU2 moveU c

def moveD2 (c : RCube) : RCube := doubleMoveStep tokD2 moveD c

def moveR2 (c : RCube) : RCube := doubleMoveStep tokR2 moveR c

def moveL2 (c : RCube) : RCube := doubleMoveStep tokL2 moveL c

def moveF2 (c : RCube) : RCube := doubleMoveStep tokF2 moveF c

def moveB2 (c : RCube) : RCube := doubleMoveStep tokB2 moveB c

/-- `move_M`: not applicable below size 3 (no state change, nothing appended);
odd sizes rotate the middle slice; the token is always appended for sizes ≥ 3.
The tracker is never consulted by the slice moves. -/
def moveM (c : RCube) : RCube :=
  if c.size < 3 then c
  else ⟨c.size, if c.size % 2 = 1 then sliceMGrid c.size c.grid else c.grid,
        c.history ++ [tokM], c.tracker⟩

/-- `move_E`, with the same structure as `move_M`. -/
def moveE (c : RCube) : RCube :=
  if c.size < 3 then c
  else ⟨c.size, if c.size % 2 = 1 then sliceEGrid c.size c.grid else c.grid,
        c.history ++ [tokE], c.tracker⟩

/-- `move_S`, with the same structure as `move_M`. -/
def moveS (c : RCube) : RCube :=
  if c.size < 3 then c
  else ⟨c.size, if c.size % 2 = 1 then sliceSGrid c.size c.grid else c.grid,
        c.history ++ [tokS], c.tracker⟩

/-- The `move_map` dict of `execute_moves` (21 entries). -/
def moveMapLookup (m : String) : Option (RCube → RCube) :=
  if m = tokU then some moveU
  else if m = tokUp then some moveUprime
  else if m = tokU2 then some moveU2
  else if m = tokD then some moveD
  else if m = tokDp then some moveDprime
  else if m = tokD2 then some moveD2
  else if m = tokR then some moveR
  else if m = tokRp then some moveRprime
  else if m = tokR2 then some moveR2
  else if m = tokL then some moveL
  else if m = tokLp then some moveLprime
  else if m = tokL2 then some moveL2
  else if m = tokF then some moveF
  else if m = tokFp then some moveFprime
  else if m = tokF2 then some moveF2
  else if m = tokB then some moveB
  else if m = tokBp then some moveBprime
  else if m = tokB2 then some moveB2
  else if m = tokM then some moveM
  else if m = tokE then some moveE
  else if m = tokS then some moveS
  else none

/-- `execute_moves`, applied to an already-split token list (the source splits
a space-separated string); unknown tokens are skipped and the rest continue. -/
def executeMoves (ms : List String) (c : RCube) : RCube :=
  ms.foldl (fun c m =>
    match moveMapLookup m with
    | some f => f c
    | none => c) c

/-- The `basic_moves` list of `scramble`: the 12 quarter-turn tokens, extended
with the three slice tokens when `size >= 3`. -/
def scrambleAlphabet (size : ℕ) : List String :=
  [tokU, tokD, tokR, tokL, tokF, tokB, tokUp, tokDp, tokRp, tokLp, tokFp, tokBp]
    ++ (if 3 ≤ size then [tokM, tokE, tokS] else [])

/-- `scramble`: each call to `random.choice(basic_moves)` is embedded as one
entry of `picks` (an index into the alphabet, which is what a uniform choice
from the list returns); the chosen tokens are applied via `execute_moves`. -/
def scramble (c : RCube) (picks : List (Fin (scrambleAlphabet c.size).length)) : RCube :=
  executeMoves (picks.map fun p => (scrambleAlphabet c.size).get p) c

/-- `is_solved`: every in-range cell of face `f` holds `f`'s color id. -/
def isSolvedCube (c : RCube) : Bool :=
  faceList.all fun f =>
    (List.range c.size).all fun i =>
      (List.range c.size).all fun j => c.grid f i j == faceColor f

def msgNoTracker : String := "No tracker available for validation"

def msgStateValid : String := "Cube state is valid"

/-- `validate_cube_state`: wraps `validate_state` in try/except and returns a
`{'valid': ..., 'message': ...}` diagnostic; the raised `ValueError` message is
returned, never propagated. -/
def validateCubeState (c : RCube) : Bool × String :=
  match c.tracker with
  | none => (true, msgNoTracker)
  | some t =>
    match validateState t with
    | Except.ok _ => (true, msgStateValid)
    | Except.error e => (false, e)

/-! ## RubiksCubeSolver (src/solver.py)

    The solver mutates its `RubiksCube` (through `_execute_move`) and its own
    `solution_moves` list; all of its decisions read only the facelet grid. -/

/-- Solver color ids (`self.WHITE = 0`, ..., `self.BLUE = 5`). -/
def WHITE : ℕ := 0

def YELLOW : ℕ := 1

def RED : ℕ := 2

def ORANGE : ℕ := 3

def GREEN : ℕ := 4

def BLUE : ℕ := 5

/-- A facelet coordinate `(face, row, col)` as used by the solver. -/
def SPos : Type := Face × ℕ × ℕ

instance : DecidableEq SPos := by
  unfold SPos
  infer_instance

def EdgeLoc : Type := SPos × SPos

instance : DecidableEq EdgeLoc := by
  unfold EdgeLoc
  infer_instance

def CornerLoc : Type := SPos × SPos × SPos

instance : DecidableEq CornerLoc := by
  unfold CornerLoc
  infer_instance

def cellAt (g : Grid) (p : SPos) : ℕ := g p.1 p.2.1 p.2.2

/-- Python `set([a, b]) == set([c, d])`. -/
def setEq2 (a b c d : ℕ) : Bool :=
  ({a, b} : Finset ℕ) = ({c, d} : Finset ℕ)

/-- Python `set([a, b, c]) == set([d, e, f])`. -/
def setEq3 (a b c d e f : ℕ) : Bool :=
  ({a, b, c} : Finset ℕ) = ({d, e, f} : Finset ℕ)

/-- Python `(a - b) % 4` on ints (the difference may be negative). -/
def rotationsNeeded (a b : ℕ) : ℕ := (((a : ℤ) - (b : ℤ)) % 4).toNat

/-- Solver state: the cube being mutated plus `self.solution_moves`. -/
structure SolverState where
  cube : RCube
  sol : List String

/-- The `move_methods` dict of `RubiksCubeSolver._execute_move`
(18 entries; no slice tokens). -/
def solverMoveLookup (m : String) : Option (RCube → RCube) :=
  if m = tokU then some moveU
  else if m = tokUp then some moveUprime
  else if m = tokU2 then some moveU2
  else if m = tokD then some moveD
  else if m = tokDp then some moveDprime
  else if m = tokD2 then some moveD2
  else if m = tokR then some moveR
  else if m = tokRp then some moveRprime
  else if m = tokR2 then some moveR2
  else if m = tokL then some moveL
  else if m = tokLp then some moveLprime
  else if m = tokL2 then some moveL2
  else if m = tokF then some moveF
  else if m = tokFp then some moveFprime
  else if m = tokF2 then some moveF2
  else if m = tokB then some moveB
  else if m = tokBp then some moveBprime
  else if m = tokB2 then some moveB2
  else none

/-- `_execute_move`: a recognized token mutates the cube and is appended to
`solution_moves`; an unrecognized token is only reported and skipped. -/
def execMove (m : String) (s : SolverState) : SolverState :=
  match solverMoveLookup m with
  | some f => ⟨f s.cube, s.sol ++ [m]⟩
  | none => s

/-- `_execute_algorithm`, applied to the already-split token list of the
source's space-separated algorithm string. -/
def execAlg (alg : List String) (s : SolverState) : SolverState :=
  alg.foldl (fun s m => execMove m s) s

/-- `for _ in range(k): self._execute_move(m)`. -/
def execMoveN (m : String) (k : ℕ) (s : SolverState) : SolverState :=
  (List.range k).foldl (fun s _ => execMove m s) s

/-! ### Phase 1: white cross -/

def whiteEdgeSlotPairs : List EdgeLoc :=
  [((.DOWN, 0, 1), (.FRONT, 2, 1)), ((.DOWN, 1, 2), (.RIGHT, 2, 1)),
   ((.DOWN, 2, 1), (.BACK, 2, 1)), ((.DOWN, 1, 0), (.LEFT, 2, 1))]

def whiteEdgeExpectedColors : List (ℕ × ℕ) :=
  [(WHITE, GREEN), (WHITE, RED), (WHITE, BLUE), (WHITE, ORANGE)]

def dfltEdgeLoc : EdgeLoc := ((.FRONT, 0, 0), (.FRONT, 0, 0))

/-- `_is_white_edge_solved` (callers pass `edge_index` in 0..3). -/
def isWhiteEdgeSolved (g : Grid) (i : ℕ) : Bool :=
  let pp := whiteEdgeSlotPairs.getD i dfltEdgeLoc
  let cc := whiteEdgeExpectedColors.getD i (0, 0)
  cellAt g pp.1 == cc.1 && cellAt g pp.2 == cc.2

/-- The 12 searched edge locations of `_find_white_edge_for_position`:
top layer, bottom layer, then middle layer. -/
def whiteEdgeSearchLocations : List EdgeLoc :=
  [((.UP, 0, 1), (.BACK, 0, 1)), ((.UP, 1, 2), (.RIGHT, 0, 1)),
   ((.UP, 2, 1), (.FRONT, 0, 1)), ((.UP, 1, 0), (.LEFT, 0, 1)),
   ((.DOWN, 0, 1), (.FRONT, 2, 1)), ((.DOWN, 1, 2), (.RIGHT, 2, 1)),
   ((.DOWN, 2, 1), (.BACK, 2, 1)), ((.DOWN, 1, 0), (.LEFT, 2, 1)),
   ((.FRONT, 1, 0), (.LEFT, 1, 2)), ((.FRONT, 1, 2), (.RIGHT, 1, 0)),
   ((.BACK, 1, 0), (.RIGHT, 1, 2)), ((.BACK, 1, 2), (.LEFT, 1, 0))]

/-- `_find_white_edge_for_position`: first searched location whose two facelet
colors form the target color set. -/
def findWhiteEdgeForPosition (g : Grid) (target : ℕ) : Option EdgeLoc :=
  let tc := whiteEdgeExpectedColors.getD target (0, 0)
  whiteEdgeSearchLocations.find? fun loc =>
    setEq2 (cellAt g loc.1) (cellAt g loc.2) tc.1 tc.2

/-- `_get_top_edge_position`. -/
def getTopEdgePosition (p : SPos) : ℕ :=
  if p = ((.UP : Face), 2, 1) then 0
  else if p = ((.UP : Face), 1, 2) then 1
  else if p = ((.UP : Face), 0, 1) then 2
  else if p = ((.UP : Face), 1, 0) then 3
  else 0

/-- `_get_bottom_edge_position`. -/
def getBottomEdgePosition (p : SPos) : ℕ :=
  if p = ((.DOWN : Face), 0, 1) then 0
  else if p = ((.DOWN : Face), 1, 2) then 1
  else if p = ((.DOWN : Face), 2, 1) then 2
  else if p = ((.DOWN : Face), 1, 0) then 3
  else 0

def algExtractFrontRight : List String := [tokR, tokU, tokRp, tokUp, tokFp, tokU, tokF]

def algExtractFrontLeft : List String := [tokLp, tokUp, tokL, tokU, tokF, tokUp, tokFp]

def algExtractRightBack : List String := [tokB, tokU, tokBp, tokUp, tokRp, tokU, tokR]

def algExtractBackLeft : List String := [tokL, tokU, tokLp, tokUp, tokBp, tokU, tokB]

/-- `_move_white_edge_to_position`.  The source recurses without any counter
after moving a bottom- or middle-layer edge; the recursion is embedded with
explicit fuel, `none` meaning the Python call never returns.  In the
middle-layer branch the four conditions test `pos1` against
(FRONT, col 2), (FRONT, col 0), (RIGHT, col 2) and (BACK, col 0); a location
matching none of them (the searched slot `(BACK, 1, 2)`) changes nothing. -/
def moveWhiteEdgeToPosition : ℕ → EdgeLoc → ℕ → SolverState → Option SolverState
  | 0, _, _, _ => none
  | fuel + 1, loc, target, s =>
    let pos1 := loc.1
    if pos1.1 = Face.UP then
      let s1 := execMoveN tokU (rotationsNeeded target (getTopEdgePosition pos1)) s
      let s2 :=
        if target = 0 then execAlg [tokF2] s1
        else if target = 1 then execAlg [tokR2] s1
        else if target = 2 then execAlg [tokB2] s1
        else if target = 3 then execAlg [tokL2] s1
        else s1
      some s2
    else if pos1.1 = Face.DOWN then
      let cur := getBottomEdgePosition pos1
      let s1 :=
        if cur = 0 then execAlg [tokF2] s
        else if cur = 1 then execAlg [tokR2] s
        else if cur = 2 then execAlg [tokB2] s
        else if cur = 3 then execAlg [tokL2] s
        else s
      match findWhiteEdgeForPosition s1.cube.grid target with
      | some l => moveWhiteEdgeToPosition fuel l target s1
      | none => some s1
    else
      let s1 :=
        if pos1.1 = Face.FRONT ∧ pos1.2.2 = 2 then execAlg algExtractFrontRight s
        else if pos1.1 = Face.FRONT ∧ pos1.2.2 = 0 then execAlg algExtractFrontLeft s
        else if pos1.1 = Face.RIGHT ∧ pos1.2.2 = 2 then execAlg algExtractRightBack s
        else if pos1.1 = Face.BACK ∧ pos1.2.2 = 0 then execAlg algExtractBackLeft s
        else s
      match findWhiteEdgeForPosition s1.cube.grid target with
      | some l => moveWhiteEdgeToPosition fuel l target s1
      | none => some s1

/-- One iteration of the `_solve_white_cross` loop body for edge `i`. -/
def whiteCrossStep (fuel : ℕ) (i : ℕ) (s : SolverState) : Option SolverState :=
  if isWhiteEdgeSolved s.cube.grid i then some s
  else
    match findWhiteEdgeForPosition s.cube.grid i with
    | some loc => moveWhiteEdgeToPosition fuel loc i s
    | none => some s

/-- `_solve_white_cross`: the four edges in order. -/
def solveWhiteCross (fuel : ℕ) (s : SolverState) : Option SolverState := do
  let s0 ← whiteCrossStep fuel 0 s
  let s1 ← whiteCrossStep fuel 1 s0
  let s2 ← whiteCrossStep fuel 2 s1
  whiteCrossStep fuel 3 s2

/-- The phase-1 completion predicate: all four cross edges solved. -/
def whiteCrossComplete (g : Grid) : Bool :=
  isWhiteEdgeSolved g 0 && isWhiteEdgeSolved g 1 &&
    isWhiteEdgeSolved g 2 && isWhiteEdgeSolved g 3

/-! ### Phase 2: white corners -/

def whiteCornerSlotTriples : List CornerLoc :=
  [((.DOWN, 0, 2), (.FRONT, 2, 2), (.RIGHT, 2, 0)),
   ((.DOWN, 0, 0), (.FRONT, 2, 0), (.LEFT, 2, 2)),
   ((.DOWN, 2, 0), (.BACK, 2, 2), (.LEFT, 2, 0)),
   ((.DOWN, 2, 2), (.BACK, 2, 0), (.RIGHT, 2, 2))]

def whiteCornerExpectedColors : List (ℕ × ℕ × ℕ) :=
  [(WHITE, GREEN, RED), (WHITE, GREEN, ORANGE), (WHITE, BLUE, ORANGE), (WHITE, BLUE, RED)]

def dfltCornerLoc : CornerLoc := ((.FRONT, 0, 0), (.FRONT, 0, 0), (.FRONT, 0, 0))

/-- `_is_white_corner_solved`: color sets match and the first (DOWN) facelet is
white. -/
def isWhiteCornerSolved (g : Grid) (i : ℕ) : Bool :=
  let ps := whiteCornerSlotTriples.getD i dfltCornerLoc
  let ec := whiteCornerExpectedColors.getD i (0, 0, 0)
  setEq3 (cellAt g ps.1) (cellAt g ps.2.1) (cellAt g ps.2.2) ec.1 ec.2.1 ec.2.2 &&
    cellAt g ps.1 == WHITE

/-- The 8 searched corner locations of `_find_white_corner_for_position`. -/
def whiteCornerSearchLocations : List CornerLoc :=
  [((.UP, 2, 2), (.FRONT, 0, 2), (.RIGHT, 0, 0)),
   ((.UP, 2, 0), (.FRONT, 0, 0), (.LEFT, 0, 2)),
   ((.UP, 0, 0), (.BACK, 0, 2), (.LEFT, 0, 0)),
   ((.UP, 0, 2), (.BACK, 0, 0), (.RIGHT, 0, 2)),
   ((.DOWN, 0, 2), (.FRONT, 2, 2), (.RIGHT, 2, 0)),
   ((.DOWN, 0, 0), (.FRONT, 2, 0), (.LEFT, 2, 2)),
   ((.DOWN, 2, 0), (.BACK, 2, 2), (.LEFT, 2, 0)),
   ((.DOWN, 2, 2), (.BACK, 2, 0), (.RIGHT, 2, 2))]

def findWhiteCornerForPosition (g : Grid) (target : ℕ) : Option CornerLoc :=
  let tc := whiteCornerExpectedColors.getD target (0, 0, 0)
  whiteCornerSearchLocations.find? fun loc =>
    setEq3 (cellAt g loc.1) (cellAt g loc.2.1) (cellAt g loc.2.2) tc.1 tc.2.1 tc.2.2

/-- `_get_top_corner_position`. -/
def getTopCornerPosition (p : SPos) : ℕ :=
  if p = ((.UP : Face), 2, 2) then 0
  else if p = ((.UP : Face), 2, 0) then 1
  else if p = ((.UP : Face), 0, 0) then 2
  else if p = ((.UP : Face), 0, 2) then 3
  else 0

/-- `_get_bottom_corner_position`. -/
def getBottomCornerPosition (p : SPos) : ℕ :=
  if p = ((.DOWN : Face), 0, 2) then 0
  else if p = ((.DOWN : Face), 0, 0) then 1
  else if p = ((.DOWN : Face), 2, 0) then 2
  else if p = ((.DOWN : Face), 2, 2) then 3
  else 0

def strTop : String := "top"

def strFront : String := "front"

def strRight : String := "right"

/-- `_find_white_on_corner_above_FR`. -/
def findWhiteOnCornerAboveFR (g : Grid) : String :=
  if g .UP 2 2 = WHITE then strTop
  else if g .FRONT 0 2 = WHITE then strFront
  else if g .RIGHT 0 0 = WHITE then strRight
  else strTop

def algCornerWhiteRight : List String := [tokRp, tokDp, tokR, tokD]

def algCornerWhiteFront : List String :=
  [tokF, tokD, tokFp, tokDp, tokDp, tokRp, tokDp, tokR]

def algCornerWhiteTop : List String :=
  [tokRp, tokD2, tokR, tokD, tokRp, tokDp, tokR]

/-- `_insert_corner_algorithm_FR`. -/
def insertCornerAlgorithmFR (s : SolverState) : SolverState :=
  let w := findWhiteOnCornerAboveFR s.cube.grid
  if w = strRight then execAlg algCornerWhiteRight s
  else if w = strFront then execAlg algCornerWhiteFront s
  else execAlg algCornerWhiteTop s

def algInsertCornerFL : List String := [tokL, tokD, tokLp, tokDp]

def algInsertCornerBL : List String := [tokLp, tokDp, tokL, tokD]

def algInsertCornerBR : List String := [tokR, tokD, tokRp, tokDp]

def algCornerExtract0 : List String := [tokRp, tokDp, tokR, tokD]

def algCornerExtract1 : List String := [tokL, tokD, tokLp, tokDp]

def algCornerExtract2 : List String := [tokLp, tokDp, tokL, tokD]

def algCornerExtract3 : List String := [tokR, tokD, tokRp, tokDp]

/-- `_move_white_corner_to_position`, fueled like the edge version; a corner
location that is neither in the top nor the bottom layer falls through with no
effect (the source has no `else`). -/
def moveWhiteCornerToPosition : ℕ → CornerLoc → ℕ → SolverState → Option SolverState
  | 0, _, _, _ => none
  | fuel + 1, loc, target, s =>
    let pos1 := loc.1
    if pos1.1 = Face.UP then
      let s1 := execMoveN tokU (rotationsNeeded target (getTopCornerPosition pos1)) s
      let s2 :=
        if target = 0 then insertCornerAlgorithmFR s1
        else if target = 1 then execAlg algInsertCornerFL s1
        else if target = 2 then execAlg algInsertCornerBL s1
        else if target = 3 then execAlg algInsertCornerBR s1
        else s1
      some s2
    else if pos1.1 = Face.DOWN then
      let cur := getBottomCornerPosition pos1
      let s1 :=
        if cur = 0 then execAlg algCornerExtract0 s
        else if cur = 1 then execAlg algCornerExtract1 s
        else if cur = 2 then execAlg algCornerExtract2 s
        else if cur = 3 then execAlg algCornerExtract3 s
        else s
      match findWhiteCornerForPosition s1.cube.grid target with
      | some l => moveWhiteCornerToPosition fuel l target s1
      | none => some s1
    else some s

/-- One iteration of the `_solve_white_corners` loop body for corner `i`. -/
def whiteCornersStep (fuel : ℕ) (i : ℕ) (s : SolverState) : Option SolverState :=
  if isWhiteCornerSolved s.cube.grid i then some s
  else
    match findWhiteCornerForPosition s.cube.grid i with
    | some loc => moveWhiteCornerToPosition fuel loc i s
    | none => some s

/-- `_solve_white_corners`. -/
def solveWhiteCorners (fuel : ℕ) (s : SolverState) : Option SolverState := do
  let s0 ← whiteCornersStep fuel 0 s
  let s1 ← whiteCornersStep fuel 1 s0
  let s2 ← whiteCornersStep fuel 2 s1
  whiteCornersStep fuel 3 s2

/-! ### Phase 3: middle layer -/

def middleEdgeSlotPairs : List EdgeLoc :=
  [((.FRONT, 1, 0), (.LEFT, 1, 2)), ((.FRONT, 1, 2), (.RIGHT, 1, 0)),
   ((.BACK, 1, 0), (.RIGHT, 1, 2)), ((.BACK, 1, 2), (.LEFT, 1, 0))]

def middleEdgeExpectedColors : List (ℕ × ℕ) :=
  [(GREEN, ORANGE), (GREEN, RED), (BLUE, RED), (BLUE, ORANGE)]

/-- `_is_middle_edge_solved`. -/
def isMiddleEdgeSolved (g : Grid) (i : ℕ) : Bool :=
  let pp := middleEdgeSlotPairs.getD i dfltEdgeLoc
  let cc := middleEdgeExpectedColors.getD i (0, 0)
  cellAt g pp.1 == cc.1 && cellAt g pp.2 == cc.2

def topEdgeSearchLocations : List EdgeLoc :=
  [((.UP, 0, 1), (.BACK, 0, 1)), ((.UP, 1, 2), (.RIGHT, 0, 1)),
   ((.UP, 2, 1), (.FRONT, 0, 1)), ((.UP, 1, 0), (.LEFT, 0, 1))]

/-- `_find_middle_edge_for_position`: searched over the four top-layer and four
middle-layer locations; the piece must not contain white or yellow. -/
def findMiddleEdgeForPosition (g : Grid) (target : ℕ) : Option EdgeLoc :=
  let tc := middleEdgeExpectedColors.getD target (0, 0)
  (topEdgeSearchLocations ++ middleEdgeSlotPairs).find? fun loc =>
    let c1 := cellAt g loc.1
    let c2 := cellAt g loc.2
    !(c1 == WHITE) && !(c2 == WHITE) && !(c1 == YELLOW) && !(c2 == YELLOW) &&
      setEq2 c1 c2 tc.1 tc.2

def algMidExtractBackRight : List String := [tokRp, tokUp, tokR, tokU, tokB, tokUp, tokBp]

def algMidExtractBackLeft : List String := [tokL, tokU, tokLp, tokUp, tokBp, tokU, tokB]

/-- `_extract_middle_edge_to_top`. -/
def extractMiddleEdgeToTop (loc : EdgeLoc) (s : SolverState) : SolverState :=
  let pos1 := loc.1
  if pos1 = ((.FRONT : Face), 1, 2) then execAlg algExtractFrontRight s
  else if pos1 = ((.FRONT : Face), 1, 0) then execAlg algExtractFrontLeft s
  else if pos1 = ((.BACK : Face), 1, 0) then execAlg algMidExtractBackRight s
  else if pos1 = ((.BACK : Face), 1, 2) then execAlg algMidExtractBackLeft s
  else s

def algMidInsertFRright : List String := [tokU, tokR, tokUp, tokRp, tokUp, tokFp, tokU, tokF]

def algMidInsertFRleft : List String := [tokUp, tokFp, tokU, tokF, tokU, tokR, tokUp, tokRp]

def algMidInsertFLleft : List String := [tokUp, tokLp, tokU, tokL, tokU, tokF, tokUp, tokFp]

def algMidInsertFLright : List String := [tokU, tokF, tokUp, tokFp, tokUp, tokLp, tokU, tokL]

def algMidInsertBRright : List String := [tokU, tokRp, tokUp, tokR, tokU, tokB, tokUp, tokBp]

def algMidInsertBRleft : List String := [tokUp, tokB, tokUp, tokBp, tokUp, tokRp, tokU, tokR]

def algMidInsertBLleft : List String := [tokUp, tokL, tokU, tokLp, tokU, tokBp, tokUp, tokB]

def algMidInsertBLright : List String := [tokU, tokBp, tokU, tokB, tokU, tokL, tokUp, tokLp]

/-- `_insert_middle_edge_FR` (slot above FR is top position 1). -/
def insertMiddleEdgeFR (curTop : ℕ) (s : SolverState) : SolverState :=
  let s1 := execMoveN tokU (rotationsNeeded 1 curTop) s
  if s1.cube.grid .FRONT 0 1 = GREEN then execAlg algMidInsertFRright s1
  else execAlg algMidInsertFRleft s1

/-- `_insert_middle_edge_FL` (slot above FL is top position 3). -/
def insertMiddleEdgeFL (curTop : ℕ) (s : SolverState) : SolverState :=
  let s1 := execMoveN tokU (rotationsNeeded 3 curTop) s
  if s1.cube.grid .FRONT 0 1 = GREEN then execAlg algMidInsertFLleft s1
  else execAlg algMidInsertFLright s1

/-- `_insert_middle_edge_BR` (slot above BR is top position 0). -/
def insertMiddleEdgeBR (curTop : ℕ) (s : SolverState) : SolverState :=
  let s1 := execMoveN tokU (rotationsNeeded 0 curTop) s
  if s1.cube.grid .BACK 0 1 = BLUE then execAlg algMidInsertBRright s1
  else execAlg algMidInsertBRleft s1

/-- `_insert_middle_edge_BL` (slot above BL is top position 2). -/
def insertMiddleEdgeBL (curTop : ℕ) (s : SolverState) : SolverState :=
  let s1 := execMoveN tokU (rotationsNeeded 2 curTop) s
  if s1.cube.grid .BACK 0 1 = BLUE then execAlg algMidInsertBLleft s1
  else execAlg algMidInsertBLright s1

/-- `_move_middle_edge_to_position`: an edge already in the middle layer is
extracted and searched again (keeping the old location if the search fails);
then, if the location is in the top layer, insert by target slot. -/
def moveMiddleEdgeToPosition (loc : EdgeLoc) (target : ℕ) (s : SolverState) : SolverState :=
  let pos1 := loc.1
  let inMiddle :=
    (pos1.1 = Face.FRONT ∨ pos1.1 = Face.BACK ∨ pos1.1 = Face.LEFT ∨ pos1.1 = Face.RIGHT) ∧
      pos1.2.1 = 1
  let s1 := if inMiddle then extractMiddleEdgeToTop loc s else s
  let loc1 :=
    if inMiddle then
      match findMiddleEdgeForPosition s1.cube.grid target with
      | some l => l
      | none => loc
    else loc
  if loc1.1.1 = Face.UP then
    let cur := getTopEdgePosition loc1.1
    if target = 0 then insertMiddleEdgeFL cur s1
    else if target = 1 then insertMiddleEdgeFR cur s1
    else if target = 2 then insertMiddleEdgeBR cur s1
    else if target = 3 then insertMiddleEdgeBL cur s1
    else s1
  else s1

/-- One iteration of the `_solve_middle_layer` loop body for edge `i`. -/
def middleLayerStep (i : ℕ) (s : SolverState) : SolverState :=
  if isMiddleEdgeSolved s.cube.grid i then s
  else
    match findMiddleEdgeForPosition s.cube.grid i with
    | some loc => moveMiddleEdgeToPosition loc i s
    | none => s

/-- `_solve_middle_layer`. -/
def solveMiddleLayer (s : SolverState) : SolverState :=
  middleLayerStep 3 (middleLayerStep 2 (middleLayerStep 1 (middleLayerStep 0 s)))

/-! ### Phase 4: yellow cross -/

def strDot : String := "dot"

def strLine : String := "line"

def strLshape : String := "L"

def strCross : String := "cross"

def strPartial : String := "partial"

/-- `_is_yellow_cross_complete`. -/
def isYellowCrossComplete (g : Grid) : Bool :=
  g .UP 1 1 == YELLOW && g .UP 0 1 == YELLOW && g .UP 1 0 == YELLOW &&
    g .UP 1 2 == YELLOW && g .UP 2 1 == YELLOW

/-- `_analyze_yellow_cross_case`. -/
def analyzeYellowCrossCase (g : Grid) : String :=
  let e0 := g .UP 0 1 = YELLOW
  let e1 := g .UP 1 2 = YELLOW
  let e2 := g .UP 2 1 = YELLOW
  let e3 := g .UP 1 0 = YELLOW
  let count := (if e0 then 1 else 0) + (if e1 then 1 else 0) +
    (if e2 then 1 else 0) + (if e3 then 1 else 0)
  if count = 0 then strDot
  else if count = 2 then
    if (e0 ∧ e2) ∨ (e1 ∧ e3) then strLine else strLshape
  else if count = 4 then strCross
  else strPartial

/-- `_is_yellow_line_horizontal`. -/
def isYellowLineHorizontal (g : Grid) : Bool :=
  g .UP 1 0 == YELLOW && g .UP 1 2 == YELLOW

/-- `_orient_yellow_L_shape`. -/
def orientYellowLShape (s : SolverState) : SolverState :=
  let g := s.cube.grid
  if g .UP 0 1 = YELLOW ∧ g .UP 1 0 = YELLOW then s
  else if g .UP 0 1 = YELLOW ∧ g .UP 1 2 = YELLOW then execMove tokU s
  else if g .UP 1 2 = YELLOW ∧ g .UP 2 1 = YELLOW then execAlg [tokU2] s
  else if g .UP 2 1 = YELLOW ∧ g .UP 1 0 = YELLOW then execMove tokUp s
  else s

def algOLLcrossEdge : List String := [tokF, tokR, tokU, tokRp, tokUp, tokFp]

/-- The `_solve_yellow_cross` retry loop on its remaining attempt count
(`max_attempts = 8`); a `partial` classification applies no algorithm. -/
def yellowCrossLoop : ℕ → SolverState → SolverState
  | 0, s => s
  | n + 1, s =>
    if isYellowCrossComplete s.cube.grid then s
    else
      let c := analyzeYellowCrossCase s.cube.grid
      let s1 :=
        if c = strDot then execAlg algOLLcrossEdge s
        else if c = strLine then
          execAlg algOLLcrossEdge (if isYellowLineHorizontal s.cube.grid then execMove tokU s else s)
        else if c = strLshape then execAlg algOLLcrossEdge (orientYellowLShape s)
        else s
      yellowCrossLoop n s1

/-- `_solve_yellow_cross`. -/
def solveYellowCross (s : SolverState) : SolverState := yellowCrossLoop 8 s

/-! ### Phase 5: yellow corner orientation -/

/-- `_are_all_yellow_corners_oriented`. -/
def areAllYellowCornersOriented (g : Grid) : Bool :=
  g .UP 0 0 == YELLOW && g .UP 0 2 == YELLOW && g .UP 2 0 == YELLOW && g .UP 2 2 == YELLOW

/-- `_count_oriented_yellow_corners`. -/
def countOrientedYellowCorners (g : Grid) : ℕ :=
  (if g .UP 0 0 = YELLOW then 1 else 0) + (if g .UP 0 2 = YELLOW then 1 else 0) +
    (if g .UP 2 0 = YELLOW then 1 else 0) + (if g .UP 2 2 = YELLOW then 1 else 0)

/-- `_position_oriented_corner_BR`: rotate the first yellow-on-top corner to
position 1. -/
def positionOrientedCornerBR (s : SolverState) : SolverState :=
  let g := s.cube.grid
  match ([(g .UP 0 0, 0), (g .UP 0 2, 1), (g .UP 2 0, 2), (g .UP 2 2, 3)].find?
      fun p => p.1 == YELLOW) with
  | some p => execMoveN tokU (rotationsNeeded 1 p.2) s
  | none => s

/-- `_position_two_oriented_corners`: the ascending list of yellow-on-top
corner indices; diagonal pairs rotate the first to position 1, adjacent pairs
use the fixed table. -/
def positionTwoOrientedCorners (s : SolverState) : SolverState :=
  let g := s.cube.grid
  let l : List ℕ := (if g .UP 0 0 = YELLOW then [0] else []) ++
    (if g .UP 0 2 = YELLOW then [1] else []) ++
    (if g .UP 2 0 = YELLOW then [2] else []) ++
    (if g .UP 2 2 = YELLOW then [3] else [])
  match l with
  | [p1, p2] =>
    if ((p1 : ℤ) - (p2 : ℤ)).natAbs = 2 then execMoveN tokU (rotationsNeeded 1 p1) s
    else if p1 = 0 ∧ p2 = 1 then s
    else if p1 = 1 ∧ p2 = 3 then execMove tokUp s
    else if p1 = 2 ∧ p2 = 3 then execAlg [tokU2] s
    else if p1 = 0 ∧ p2 = 2 then execMove tokU s
    else s
  | _ => s

def algSune : List String := [tokR, tokU, tokRp, tokU, tokR, tokU2, tokRp]

/-- The `_orient_yellow_corners` retry loop (`max_attempts = 8`); an oriented
count of 3 applies no algorithm. -/
def orientYellowCornersLoop : ℕ → SolverState → SolverState
  | 0, s => s
  | n + 1, s =>
    if areAllYellowCornersOriented s.cube.grid then s
    else
      let k := countOrientedYellowCorners s.cube.grid
      let s1 :=
        if k = 0 then execAlg algSune s
        else if k = 1 then execAlg algSune (positionOrientedCornerBR s)
        else if k = 2 then execAlg algSune (positionTwoOrientedCorners s)
        else s
      orientYellowCornersLoop n s1

/-- `_orient_yellow_corners`. -/
def orientYellowCorners (s : SolverState) : SolverState := orientYellowCornersLoop 8 s

/-! ### Phase 6: last layer permutation -/

def lastLayerCornerTriples : List CornerLoc :=
  [((.UP, 0, 0), (.BACK, 0, 2), (.LEFT, 0, 0)),
   ((.UP, 0, 2), (.BACK, 0, 0), (.RIGHT, 0, 2)),
   ((.UP, 2, 0), (.FRONT, 0, 0), (.LEFT, 0, 2)),
   ((.UP, 2, 2), (.FRONT, 0, 2), (.RIGHT, 0, 0))]

def lastLayerCornerExpected : List (ℕ × ℕ × ℕ) :=
  [(YELLOW, BLUE, ORANGE), (YELLOW, BLUE, RED), (YELLOW, GREEN, ORANGE), (YELLOW, GREEN, RED)]

/-- `_are_corners_permuted`. -/
def areCornersPermuted (g : Grid) : Bool :=
  (List.range 4).all fun i =>
    let ps := lastLayerCornerTriples.getD i dfltCornerLoc
    let ec := lastLayerCornerExpected.getD i (0, 0, 0)
    setEq3 (cellAt g ps.1) (cellAt g ps.2.1) (cellAt g ps.2.2) ec.1 ec.2.1 ec.2.2

def lastLayerEdgePairs : List EdgeLoc :=
  [((.UP, 0, 1), (.BACK, 0, 1)), ((.UP, 1, 2), (.RIGHT, 0, 1)),
   ((.UP, 2, 1), (.FRONT, 0, 1)), ((.UP, 1, 0), (.LEFT, 0, 1))]

def lastLayerEdgeExpected : List (ℕ × ℕ) :=
  [(YELLOW, BLUE), (YELLOW, RED), (YELLOW, GREEN), (YELLOW, ORANGE)]

/-- `_are_edges_permuted`. -/
def areEdgesPermuted (g : Grid) : Bool :=
  (List.range 4).all fun i =>
    let pp := lastLayerEdgePairs.getD i dfltEdgeLoc
    let cc := lastLayerEdgeExpected.getD i (0, 0)
    setEq2 (cellAt g pp.1) (cellAt g pp.2) cc.1 cc.2

def strSolved : String := "solved"

def strClockwise : String := "clockwise"

def strCounterclockwise : String := "counterclockwise"

def strAdjacent : String := "adjacent"

def strOpposite : String := "opposite"

/-- `_analyze_corner_permutation`: `solved` when permuted, else the default
`clockwise`. -/
def analyzeCornerPermutation (g : Grid) : String :=
  if areCornersPermuted g then strSolved else strClockwise

/-- `_analyze_edge_permutation`: `solved` when permuted, else the default
`adjacent`. -/
def analyzeEdgePermutation (g : Grid) : String :=
  if areEdgesPermuted g then strSolved else strAdjacent

def algCornerPermCW : List String :=
  [tokRp, tokF, tokR, tokFp, tokRp, tokF, tokR, tokFp]

def algCornerPermCCW : List String :=
  [tokF, tokRp, tokFp, tokR, tokF, tokRp, tokFp, tokR]

def algTperm : List String :=
  [tokR, tokU, tokRp, tokFp, tokR, tokU, tokRp, tokUp, tokRp, tokF, tokR2, tokUp, tokRp]

def algHperm : List String :=
  [tokM2, tokU, tokM2, tokU2, tokM2, tokU, tokM2]

/-- The `_permute_corners` retry loop (`max_attempts = 6`). -/
def permuteCornersLoop : ℕ → SolverState → SolverState
  | 0, s => s
  | n + 1, s =>
    if areCornersPermuted s.cube.grid then s
    else
      let c := analyzeCornerPermutation s.cube.grid
      if c = strSolved then s
      else
        let s1 :=
          if c = strClockwise then execAlg algCornerPermCW s
          else if c = strCounterclockwise then execAlg algCornerPermCCW s
          else execMove tokU (execAlg algCornerPermCW s)
        permuteCornersLoop n s1

/-- The `_permute_edges` retry loop (`max_attempts = 4`); the `opposite`
branch would run the H-perm whose `M2` token `_execute_move` does not know. -/
def permuteEdgesLoop : ℕ → SolverState → SolverState
  | 0, s => s
  | n + 1, s =>
    if areEdgesPermuted s.cube.grid then s
    else
      let c := analyzeEdgePermutation s.cube.grid
      if c = strSolved then s
      else
        let s1 :=
          if c = strAdjacent then execAlg algTperm s
          else if c = strOpposite then execAlg algHperm s
          else execMove tokU (execAlg algTperm s)
        permuteEdgesLoop n s1

/-- `_permute_last_layer`: corners first, then edges. -/
def permuteLastLayer (s : SolverState) : SolverState :=
  permuteEdgesLoop 4 (permuteCornersLoop 6 s)

/-- `solve`: reset `solution_moves`, return early on a solved cube, then run
the six phases unconditionally in order.  The fuel feeds the two phases whose
helpers recurse without a counter; `none` means the Python run never returns. -/
def solveLBL (fuel : ℕ) (c : RCube) : Option SolverState :=
  let s0 : SolverState := ⟨c, []⟩
  if isSolvedCube c then some s0
  else do
    let s1 ← solveWhiteCross fuel s0
    let s2 ← solveWhiteCorners fuel s1
    some (permuteLastLayer (orientYellowCorners (solveYellowCross (solveMiddleLayer s2))))

/-! ## The RubiksCube move methods as named operations (for claim C3)

    `CubeOp` enumerates the 21 public move methods; `opApply` invokes the
    method and `opToken` is the single token each method records.
    `replayTracker` applies a recorded history to a fresh solved tracker. -/

inductive CubeOp
  | mU | mUp | mU2 | mD | mDp | mD2 | mR | mRp | mR2 | mL | mLp | mL2
  | mF | mFp | mF2 | mB | mBp | mB2 | mM | mE | mS

def opApply : CubeOp → RCube → RCube
  | .mU => moveU
  | .mUp => moveUprime
  | .mU2 => moveU2
  | .mD => moveD
  | .mDp => moveDprime
  | .mD2 => moveD2
  | .mR => moveR
  | .mRp => moveRprime
  | .mR2 => moveR2
  | .mL => moveL
  | .mLp => moveLprime
  | .mL2 => moveL2
  | .mF => moveF
  | .mFp => moveFprime
  | .mF2 => moveF2
  | .mB => moveB
  | .mBp => moveBprime
  | .mB2 => moveB2
  | .mM => moveM
  | .mE => moveE
  | .mS => moveS

def opToken : CubeOp → String
  | .mU => tokU
  | .mUp => tokUp
  | .mU2 => tokU2
  | .mD => tokD
  | .mDp => tokDp
  | .mD2 => tokD2
  | .mR => tokR
  | .mRp => tokRp
  | .mR2 => tokR2
  | .mL => tokL
  | .mLp => tokLp
  | .mL2 => tokL2
  | .mF => tokF
  | .mFp => tokFp
  | .mF2 => tokF2
  | .mB => tokB
  | .mBp => tokBp
  | .mB2 => tokB2
  | .mM => tokM
  | .mE => tokE
  | .mS => tokS

def replayTracker (hist : List String) : Tracker :=
  hist.foldl (fun t m => applyMove m t) solvedTracker

/-! ## Structured legal tokens and concrete claim inputs -/

/-- The six base face letters of the legal move grammar. -/
inductive BaseTok
  | bU
  | bD
  | bR
  | bL
  | bF
  | bB
  deriving DecidableEq

/-- A legal token's suffix: none, prime, or double. -/
inductive TokMod
  | plain
  | prime
  | double
  deriving DecidableEq

def baseTokStr : BaseTok → String
  | .bU => tokU
  | .bD => tokD
  | .bR => tokR
  | .bL => tokL
  | .bF => tokF
  | .bB => tokB

/-- The string form of a legal face-move token (base, prime or double). -/
def legalTokStr : BaseTok → TokMod → String
  | b, .plain => baseTokStr b
  | b, .prime => (baseTokStr b).push apos
  | b, .double => (baseTokStr b).push chr2

/-- A 3x3 cube one R move away from solved (a reachable state used as the
concrete input of claim C4: `B` applied four times does not restore it). -/
def rSolvedCube : RCube := moveR (createRCube 3)

/-- A reachable 3x3 state (solved, then `U`, then `L patched`): after `U L'` the
white-green piece (the solver's cross edge 0) sits in the back-left middle
slot, the one middle-layer location `_move_white_edge_to_position` has no
extraction case for. -/
def whiteEdgeTrapCube : RCube := moveLprime (moveU (createRCube 3))

/-- The searched location `((BACK,1,2),(LEFT,1,0))` holding that piece. -/
def whiteEdgeTrapLoc : EdgeLoc := (((Face.BACK : Face), 1, 2), ((Face.LEFT : Face), 1, 0))

def whiteEdgeTrapState : SolverState := ⟨whiteEdgeTrapCube, []⟩

/-- A reachable 3x3 state (solved, then `M R L U`) on which phase 1 terminates
with its completion predicate still false. -/
def phaseGateInput : RCube := moveU (moveL (moveR (moveM (createRCube 3))))

def phaseGateState : SolverState := ⟨phaseGateInput, []⟩

/-! ## Generic lemmas about the tracker operations -/

/-- The state invariant that every legal move preserves: the four quantities
`validate_state` checks, plus the fact that edge orientations stay below 2. -/
structure TrackerInv (t : Tracker) : Prop where
  edgeCard : (edgePositionsList t).toFinset.card = 12
  cornerCard : (cornerPositionsList t).toFinset.card = 8
  edgeParity : edgeOrientationSum t % 2 = 0
  cornerParity : cornerOrientationSum t % 3 = 0
  edgeBound : ∀ i, (t.edges i).orientation < 2

theorem swapFn_eq_comp {n : ℕ} {α : Type} (f : Fin n → α) (a b : Fin n) :
    swapFn f a b = f ∘ (Equiv.swap a b) := by
  funext i
  simp only [swapFn, Function.comp_apply, Equiv.swap_apply_def]
  split_ifs <;> simp_all

theorem permutePieces_eq_comp {n : ℕ} (f : Fin n → Piece) (cys : List (Fin n × Fin n)) :
    ∃ σ : Equiv.Perm (Fin n), permutePieces f cys = f ∘ σ := by
  induction cys generalizing f with
  | nil => exact ⟨Equiv.refl _, rfl⟩
  | cons p ps ih =>
    obtain ⟨σ, hσ⟩ := ih (swapFn f p.1 p.2)
    refine ⟨σ.trans (Equiv.swap p.1 p.2), ?_⟩
    show permutePieces (swapFn f p.1 p.2) ps = _
    rw [hσ, swapFn_eq_comp]
    funext i
    simp [Equiv.trans_apply]

theorem toFinset_ofFn_comp {n : ℕ} (g : Fin n → ℕ) (σ : Equiv.Perm (Fin n)) :
    (List.ofFn fun i => g (σ i)).toFinset = (List.ofFn g).toFinset := by
  ext a
  simp only [List.mem_toFinset, List.mem_ofFn, Set.mem_range]
  constructor
  · rintro ⟨i, rfl⟩
    exact ⟨σ i, rfl⟩
  · rintro ⟨i, rfl⟩
    exact ⟨σ.symm i, by simp⟩

theorem sum_ofFn_comp {n : ℕ} (g : Fin n → ℕ) (σ : Equiv.Perm (Fin n)) :
    (List.ofFn fun i => g (σ i)).sum = (List.ofFn g).sum := by
  rw [List.sum_ofFn, List.sum_ofFn]
  exact Equiv.sum_comp σ g

theorem flipEdgeAt_position (f : Fin 12 → Piece) (a : Fin 12) (i : Fin 12) :
    (flipEdgeAt f a i).position = (f i).position := by
  simp only [flipEdgeAt, Function.update_apply]
  split_ifs with h
  · subst h
    rfl
  · rfl

theorem flipFold_position (l : List (Fin 12)) (f : Fin 12 → Piece) :
    (List.ofFn fun i => ((l.foldl flipEdgeAt f) i).position) =
      List.ofFn fun i => (f i).position := by
  induction l generalizing f with
  | nil => rfl
  | cons a l ih =>
    show (List.ofFn fun i => ((l.foldl flipEdgeAt (flipEdgeAt f a)) i).position) = _
    rw [ih (flipEdgeAt f a)]
    congr 1
    funext i
    exact flipEdgeAt_position f a i

theorem flipEdgeAt_bound (f : Fin 12 → Piece) (a : Fin 12)
    (hb : ∀ i, (f i).orientation < 2) (i : Fin 12) :
    (flipEdgeAt f a i).orientation < 2 := by
  simp only [flipEdgeAt, Function.update_apply]
  split_ifs with h
  · have h2 : (f a).orientation = 0 ∨ (f a).orientation = 1 := by
      have := hb a
      omega
    rcases h2 with h2 | h2 <;> simp [h2]
  · exact hb i

theorem flipFold_bound (l : List (Fin 12)) (f : Fin 12 → Piece)
    (hb : ∀ i, (f i).orientation < 2) (i : Fin 12) :
    ((l.foldl flipEdgeAt f) i).orientation < 2 := by
  induction l generalizing f with
  | nil => exact hb i
  | cons a l ih => exact ih (flipEdgeAt f a) (flipEdgeAt_bound f a hb)

theorem flipEdgeAt_sum (f : Fin 12 → Piece) (a : Fin 12)
    (hb : ∀ i, (f i).orientation < 2) :
    (List.ofFn fun i => (flipEdgeAt f a i).orientation).sum % 2 =
      ((List.ofFn fun i => (f i).orientation).sum + 1) % 2 := by
  rw [List.sum_ofFn, List.sum_ofFn]
  have hupd : (fun i => (flipEdgeAt f a i).orientation) =
      Function.update (fun i => (f i).orientation) a ((f a).orientation ^^^ 1) := by
    funext i
    simp only [flipEdgeAt, Function.update_apply]
    split_ifs <;> rfl
  rw [hupd, Finset.sum_update_of_mem (Finset.mem_univ a)]
  have hsplit : ∑ i, (f i).orientation =
      (f a).orientation + ∑ i in Finset.univ \ {a}, (f i).orientation := by
    rw [Finset.sdiff_singleton_eq_erase]
    exact (Finset.add_sum_erase _ _ (Finset.mem_univ a)).symm
  rw [hsplit]
  have h2 : (f a).orientation = 0 ∨ (f a).orientation = 1 := by
    have := hb a
    omega
  rcases h2 with h2 | h2 <;> rw [h2] <;>
    first
      | (rw [show ((0 : ℕ) ^^^ 1) = 1 from by decide]; omega)
      | (rw [show ((1 : ℕ) ^^^ 1) = 0 from by decide]; omega)

theorem flipFold_sum (l : List (Fin 12)) (f : Fin 12 → Piece)
    (hb : ∀ i, (f i).orientation < 2) :
    (List.ofFn fun i => ((l.foldl flipEdgeAt f) i).orientation).sum % 2 =
      ((List.ofFn fun i => (f i).orientation).sum + l.length) % 2 := by
  induction l generalizing f with
  | nil => simp
  | cons a l ih =>
    show (List.ofFn fun i => ((l.foldl flipEdgeAt (flipEdgeAt f a)) i).orientation).sum % 2 = _
    rw [ih (flipEdgeAt f a) (flipEdgeAt_bound f a hb)]
    have h1 := flipEdgeAt_sum f a hb
    simp only [List.length_cons]
    omega

theorem bumpCornerAt_position (f : Fin 8 → Piece) (p : Fin 8 × ℕ) (i : Fin 8) :
    (bumpCornerAt f p i).position = (f i).position := by
  simp only [bumpCornerAt, Function.update_apply]
  split_ifs with h
  · subst h
    rfl
  · rfl

theorem bumpFold_position (l : List (Fin 8 × ℕ)) (f : Fin 8 → Piece) :
    (List.ofFn fun i => ((l.foldl bumpCornerAt f) i).position) =
      List.ofFn fun i => (f i).position := by
  induction l generalizing f with
  | nil => rfl
  | cons a l ih =>
    show (List.ofFn fun i => ((l.foldl bumpCornerAt (bumpCornerAt f a)) i).position) = _
    rw [ih (bumpCornerAt f a)]
    congr 1
    funext i
    exact bumpCornerAt_position f a i

theorem bumpCornerAt_sum (f : Fin 8 → Piece) (p : Fin 8 × ℕ) :
    (List.ofFn fun i => (bumpCornerAt f p i).orientation).sum % 3 =
      ((List.ofFn fun i => (f i).orientation).sum + p.2) % 3 := by
  rw [List.sum_ofFn, List.sum_ofFn]
  have hupd : (fun i => (bumpCornerAt f p i).orientation) =
      Function.update (fun i => (f i).orientation) p.1 (((f p.1).orientation + p.2) % 3) := by
    funext i
    simp only [bumpCornerAt, Function.update_apply]
    split_ifs <;> rfl
  rw [hupd, Finset.sum_update_of_mem (Finset.mem_univ p.1)]
  have hsplit : ∑ i, (f i).orientation =
      (f p.1).orientation + ∑ i in Finset.univ \ {p.1}, (f i).orientation := by
    rw [Finset.sdiff_singleton_eq_erase]
    exact (Finset.add_sum_erase _ _ (Finset.mem_univ p.1)).symm
  rw [hsplit]
  omega

theorem bumpFold_sum (l : List (Fin 8 × ℕ)) (f : Fin 8 → Piece) :
    (List.ofFn fun i => ((l.foldl bumpCornerAt f) i).orientation).sum % 3 =
      ((List.ofFn fun i => (f i).orientation).sum + (l.map Prod.snd).sum) % 3 := by
  induction l generalizing f with
  | nil => simp
  | cons a l ih =>
    show (List.ofFn fun i =>
      ((l.foldl bumpCornerAt (bumpCornerAt f a)) i).orientation).sum % 3 = _
    rw [ih (bumpCornerAt f a)]
    have h1 := bumpCornerAt_sum f a
    simp only [List.map_cons, List.sum_cons]
    omega

theorem applyTable_inv (tbl : MoveTable)
    (hflip : tbl.edgeOrientFlip.length % 2 = 0)
    (hdelta : (tbl.cornerOrientChange.map Prod.snd).sum % 3 = 0)
    (t : Tracker) (h : TrackerInv t) : TrackerInv (applyTable tbl t) := by
  obtain ⟨σ, hσ⟩ := permutePieces_eq_comp t.edges tbl.edges
  obtain ⟨τ, hτ⟩ := permutePieces_eq_comp t.corners tbl.corners
  have hbe : ∀ i, ((permutePieces t.edges tbl.edges) i).orientation < 2 := by
    intro i
    rw [hσ]
    exact h.edgeBound (σ i)
  constructor
  · show ((List.ofFn fun i =>
      ((tbl.edgeOrientFlip.foldl flipEdgeAt
        (permutePieces t.edges tbl.edges)) i).position)).toFinset.card = 12
    rw [flipFold_position,
      show (List.ofFn fun i => ((permutePieces t.edges tbl.edges) i).position) =
        List.ofFn fun i => (t.edges (σ i)).position by rw [hσ]; rfl,
      toFinset_ofFn_comp (fun i => (t.edges i).position) σ]
    exact h.edgeCard
  · show ((List.ofFn fun i =>
      ((tbl.cornerOrientChange.foldl bumpCornerAt
        (permutePieces t.corners tbl.corners)) i).position)).toFinset.card = 8
    rw [bumpFold_position,
      show (List.ofFn fun i => ((permutePieces t.corners tbl.corners) i).position) =
        List.ofFn fun i => (t.corners (τ i)).position by rw [hτ]; rfl,
      toFinset_ofFn_comp (fun i => (t.corners i).position) τ]
    exact h.cornerCard
  · show ((List.ofFn fun i =>
      ((tbl.edgeOrientFlip.foldl flipEdgeAt
        (permutePieces t.edges tbl.edges)) i).orientation)).sum % 2 = 0
    rw [flipFold_sum _ _ hbe]
    have hperm : (List.ofFn fun i => ((permutePieces t.edges tbl.edges) i).orientation).sum =
        (List.ofFn fun i => (t.edges i).orientation).sum := by
      rw [show (List.ofFn fun i => ((permutePieces t.edges tbl.edges) i).orientation) =
          List.ofFn fun i => (t.edges (σ i)).orientation by rw [hσ]; rfl]
      exact sum_ofFn_comp (fun i => (t.edges i).orientation) σ
    rw [hperm]
    have := h.edgeParity
    unfold edgeOrientationSum at this
    omega
  · show ((List.ofFn fun i =>
      ((tbl.cornerOrientChange.foldl bumpCornerAt
        (permutePieces t.corners tbl.corners)) i).orientation)).sum % 3 = 0
    rw [bumpFold_sum]
    have hperm : (List.ofFn fun i => ((permutePieces t.corners tbl.corners) i).orientation).sum =
        (List.ofFn fun i => (t.corners i).orientation).sum := by
      rw [show (List.ofFn fun i => ((permutePieces t.corners tbl.corners) i).orientation) =
          List.ofFn fun i => (t.corners (τ i)).orientation by rw [hτ]; rfl]
      exact sum_ofFn_comp (fun i => (t.corners i).orientation) τ
    rw [hperm]
    have := h.cornerParity
    unfold cornerOrientationSum at this
    omega
  · intro i
    exact flipFold_bound _ _ hbe i

theorem applySingleMove_inv (m : String) (t : Tracker) (h : TrackerInv t) :
    TrackerInv (applySingleMove m t) := by
  unfold applySingleMove moveTables
  split_ifs <;>
    first
      | exact h
      | exact applyTable_inv _ (by decide) (by decide) t h

theorem applyMove_inv (m : String) (t : Tracker) (h : TrackerInv t) :
    TrackerInv (applyMove m t) := by
  unfold applyMove
  split_ifs <;>
    repeat' apply applySingleMove_inv
  repeat' exact h

theorem solvedTracker_inv : TrackerInv solvedTracker :=
  ⟨by decide, by decide, by decide, by decide, by decide⟩

theorem validateState_ok_of_inv (t : Tracker) (h : TrackerInv t) :
    validateState t = Except.ok () := by
  simp [validateState, h.edgeCard, h.cornerCard, h.edgeParity, h.cornerParity]

/-! ## Generic lemmas about the grid moves -/

theorem rotCW_four (n : ℕ) (m : ℕ → ℕ → ℕ) (i j : ℕ) :
    rotCW n (rotCW n (rotCW n (rotCW n m))) i j = m i j := by
  by_cases h : i < n ∧ j < n
  · obtain ⟨hi, hj⟩ := h
    have e1 : n - 1 - i < n := by omega
    have e2 : n - 1 - j < n := by omega
    have e3 : n - 1 - (n - 1 - i) = i := by omega
    have e4 : n - 1 - (n - 1 - j) = j := by omega
    simp [rotCW, hi, hj, e1, e2, e3, e4]
  · simp [rotCW, h]

theorem gridU_four (n : ℕ) (g : Grid) :
    gridU n (gridU n (gridU n (gridU n g))) = g := by
  funext f i j
  cases f
  case UP => exact rotCW_four n (g .UP) i j
  case DOWN => rfl
  all_goals
    by_cases h : i = 0 ∧ j < n
    · obtain ⟨rfl, hj⟩ := h
      simp [gridU, hj]
    · simp [gridU, h]

theorem gridD_four (n : ℕ) (g : Grid) :
    gridD n (gridD n (gridD n (gridD n g))) = g := by
  funext f i j
  cases f
  case DOWN => exact rotCW_four n (g .DOWN) i j
  case UP => rfl
  all_goals
    by_cases h : i = n - 1 ∧ j < n
    · obtain ⟨rfl, hj⟩ := h
      simp [gridD, hj]
    · simp [gridD, h]

theorem gridR_four (n : ℕ) (g : Grid) :
    gridR n (gridR n (gridR n (gridR n g))) = g := by
  funext f i j
  have e2 : ∀ k, k < n → n - 1 - k < n := by omega
  have e3 : ∀ k, k < n → n - 1 - (n - 1 - k) = k := by omega
  cases f
  case RIGHT => exact rotCW_four n (g .RIGHT) i j
  case LEFT => rfl
  case FRONT =>
    by_cases h : j = n - 1 ∧ i < n
    · obtain ⟨rfl, hi⟩ := h
      simp [gridR, hi, e2 i hi, e3 i hi]
    · simp [gridR, h]
  case DOWN =>
    by_cases h : j = n - 1 ∧ i < n
    · obtain ⟨rfl, hi⟩ := h
      simp [gridR, hi, e2 i hi, e3 i hi]
    · simp [gridR, h]
  case BACK =>
    by_cases h : j = 0 ∧ i < n
    · obtain ⟨rfl, hi⟩ := h
      simp [gridR, hi, e2 i hi, e3 i hi]
    · simp [gridR, h]
  case UP =>
    by_cases h : j = n - 1 ∧ i < n
    · obtain ⟨rfl, hi⟩ := h
      simp [gridR, hi, e2 i hi, e3 i hi]
    · simp [gridR, h]

theorem gridL_four (n : ℕ) (g : Grid) :
    gridL n (gridL n (gridL n (gridL n g))) = g := by
  funext f i j
  have e2 : ∀ k, k < n → n - 1 - k < n := by omega
  have e3 : ∀ k, k < n → n - 1 - (n - 1 - k) = k := by omega
  cases f
  case LEFT => exact rotCW_four n (g .LEFT) i j
  case RIGHT => rfl
  case FRONT =>
    by_cases h : j = 0 ∧ i < n
    · obtain ⟨rfl, hi⟩ := h
      simp [gridL, hi, e2 i hi, e3 i hi]
    · simp [gridL, h]
  case UP =>
    by_cases h : j = 0 ∧ i < n
    · obtain ⟨rfl, hi⟩ := h
      simp [gridL, hi, e2 i hi, e3 i hi]
    · simp [gridL, h]
  case BACK =>
    by_cases h : j = n - 1 ∧ i < n
    · obtain ⟨rfl, hi⟩ := h
      simp [gridL, hi, e2 i hi, e3 i hi]
    · simp [gridL, h]
  case DOWN =>
    by_cases h : j = 0 ∧ i < n
    · obtain ⟨rfl, hi⟩ := h
      simp [gridL, hi, e2 i hi, e3 i hi]
    · simp [gridL, h]

theorem gridF_four (n : ℕ) (g : Grid) :
    gridF n (gridF n (gridF n (gridF n g))) = g := by
  funext f i j
  have e2 : ∀ k, k < n → n - 1 - k < n := by omega
  have e3 : ∀ k, k < n → n - 1 - (n - 1 - k) = k := by omega
  cases f
  case FRONT => exact rotCW_four n (g .FRONT) i j
  case BACK => rfl
  case UP =>
    by_cases h : i = n - 1 ∧ j < n
    · obtain ⟨rfl, hj⟩ := h
      simp [gridF, hj, e2 j hj, e3 j hj]
    · simp [gridF, h]
  case LEFT =>
    by_cases h : j = n - 1 ∧ i < n
    · obtain ⟨rfl, hi⟩ := h
      simp [gridF, hi, e2 i hi, e3 i hi]
    · simp [gridF, h]
  case DOWN =>
    by_cases h : i = 0 ∧ j < n
    · obtain ⟨rfl, hj⟩ := h
      simp [gridF, hj, e2 j hj, e3 j hj]
    · simp [gridF, h]
  case RIGHT =>
    by_cases h : j = 0 ∧ i < n
    · obtain ⟨rfl, hi⟩ := h
      simp [gridF, hi, e2 i hi, e3 i hi]
    · simp [gridF, h]

/-! ## History and tracker synchronization lemmas -/

theorem applyMove_single_eq (m : String) (h1 : strEndsWithChar m apos = false)
    (h2 : strEndsWithChar m chr2 = false) (t : Tracker) :
    applyMove m t = applySingleMove m t := by
  unfold applyMove
  rw [h1, h2]
  simp

theorem applyMove_prime_eq (m : String) (h1 : strEndsWithChar m apos = true) (t : Tracker) :
    applyMove m t =
      applySingleMove (strHead1 m)
        (applySingleMove (strHead1 m) (applySingleMove (strHead1 m) t)) := by
  unfold applyMove
  rw [h1]
  simp

theorem applyMove_double_eq (m : String) (h1 : strEndsWithChar m apos = false)
    (h2 : strEndsWithChar m chr2 = true) (t : Tracker) :
    applyMove m t = applySingleMove (strHead1 m) (applySingleMove (strHead1 m) t) := by
  unfold applyMove
  rw [h1, h2]
  simp

theorem applySingleMove_none_eq (m : String) (h : moveTables m = none) (t : Tracker) :
    applySingleMove m t = t := by
  unfold applySingleMove
  rw [h]

theorem history_take3 (l : List String) (a b c d : String) :
    (((l ++ [a]) ++ [b]) ++ [c]).take ((((l ++ [a]) ++ [b]) ++ [c]).length - 3) ++ [d] =
      l ++ [d] := by
  have h1 : ((l ++ [a]) ++ [b]) ++ [c] = l ++ [a, b, c] := by simp
  rw [h1]
  have h2 : (l ++ [a, b, c]).length - 3 = l.length := by simp
  rw [h2, List.take_left]

theorem history_take2 (l : List String) (a b d : String) :
    ((l ++ [a]) ++ [b]).take (((l ++ [a]) ++ [b]).length - 2) ++ [d] = l ++ [d] := by
  have h1 : (l ++ [a]) ++ [b] = l ++ [a, b] := by simp
  rw [h1]
  have h2 : (l ++ [a, b]).length - 2 = l.length := by simp
  rw [h2, List.take_left]

theorem opStepFull (op : CubeOp) (c : RCube) (hsize : c.size = 3) :
    (opApply op c).history = c.history ++ [opToken op] ∧
      (opApply op c).tracker = c.tracker.map (applyMove (opToken op)) := by
  obtain ⟨sz, g, hist, tr⟩ := c
  have hsz : sz = 3 := hsize
  subst hsz
  cases op
  case mU => exact ⟨rfl, rfl⟩
  case mD => exact ⟨rfl, rfl⟩
  case mR => exact ⟨rfl, rfl⟩
  case mL => exact ⟨rfl, rfl⟩
  case mF => exact ⟨rfl, rfl⟩
  case mB => exact ⟨rfl, rfl⟩
  case mUp =>
    refine ⟨history_take3 hist _ _ _ _, ?_⟩
    cases tr with
    | none => rfl
    | some t =>
      show some (applyMove tokU (applyMove tokU (applyMove tokU t))) =
        some (applyMove tokUp t)
      rw [applyMove_prime_eq tokUp (by decide), show strHead1 tokUp = tokU from by decide]
      simp only [applyMove_single_eq tokU (by decide) (by decide)]
  case mDp =>
    refine ⟨history_take3 hist _ _ _ _, ?_⟩
    cases tr with
    | none => rfl
    | some t =>
      show some (applyMove tokD (applyMove tokD (applyMove tokD t))) =
        some (applyMove tokDp t)
      rw [applyMove_prime_eq tokDp (by decide), show strHead1 tokDp = tokD from by decide]
      simp only [applyMove_single_eq tokD (by decide) (by decide)]
  case mRp =>
    refine ⟨history_take3 hist _ _ _ _, ?_⟩
    cases tr with
    | none => rfl
    | some t =>
      show some (applyMove tokR (applyMove tokR (applyMove tokR t))) =
        some (applyMove tokRp t)
      rw [applyMove_prime_eq tokRp (by decide), show strHead1 tokRp = tokR from by decide]
      simp only [applyMove_single_eq tokR (by decide) (by decide)]
  case mLp =>
    refine ⟨history_take3 hist _ _ _ _, ?_⟩
    cases tr with
    | none => rfl
    | some t =>
      show some (applyMove tokL (applyMove tokL (applyMove tokL t))) =
        some (applyMove tokLp t)
      rw [applyMove_prime_eq tokLp (by decide), show strHead1 tokLp = tokL from by decide]
      simp only [applyMove_single_eq tokL (by decide) (by decide)]
  case mFp =>
    refine ⟨history_take3 hist _ _ _ _, ?_⟩
    cases tr with
    | none => rfl
    | some t =>
      show some (applyMove tokF (applyMove tokF (applyMove tokF t))) =
        some (applyMove tokFp t)
      rw [applyMove_prime_eq tokFp (by decide), show strHead1 tokFp = tokF from by decide]
      simp only [applyMove_single_eq tokF (by decide) (by decide)]
  case mBp =>
    refine ⟨history_take3 hist _ _ _ _, ?_⟩
    cases tr with
    | none => rfl
    | some t =>
      show some (applyMove tokB (applyMove tokB (applyMove tokB t))) =
        some (applyMove tokBp t)
      rw [applyMove_prime_eq tokBp (by decide), show strHead1 tokBp = tokB from by decide]
      simp only [applyMove_single_eq tokB (by decide) (by decide)]
  case mU2 =>
    refine ⟨history_take2 hist _ _ _, ?_⟩
    cases tr with
    | none => rfl
    | some t =>
      show some (applyMove tokU (applyMove tokU t)) = some (applyMove tokU2 t)
      rw [applyMove_double_eq tokU2 (by decide) (by decide),
        show strHead1 tokU2 = tokU from by decide]
      simp only [applyMove_single_eq tokU (by decide) (by decide)]
  case mD2 =>
    refine ⟨history_take2 hist _ _ _, ?_⟩
    cases tr with
    | none => rfl
    | some t =>
      show some (applyMove tokD (applyMove tokD t)) = some (applyMove tokD2 t)
      rw [applyMove_double_eq tokD2 (by decide) (by decide),
        show strHead1 tokD2 = tokD from by decide]
      simp only [applyMove_single_eq tokD (by decide) (by decide)]
  case mR2 =>
    refine ⟨history_take2 hist _ _ _, ?_⟩
    cases tr with
    | none => rfl
    | some t =>
      show some (applyMove tokR (applyMove tokR t)) = some (applyMove tokR2 t)
      rw [applyMove_double_eq tokR2 (by decide) (by decide),
        show strHead1 tokR2 = tokR from by decide]
      simp only [applyMove_single_eq tokR (by decide) (by decide)]
  case mL2 =>
    refine ⟨history_take2 hist _ _ _, ?_⟩
    cases tr with
    | none => rfl
    | some t =>
      show some (applyMove tokL (applyMove tokL t)) = some (applyMove tokL2 t)
      rw [applyMove_double_eq tokL2 (by decide) (by decide),
        show strHead1 tokL2 = tokL from by decide]
      simp only [applyMove_single_eq tokL (by decide) (by decide)]
  case mF2 =>
    refine ⟨history_take2 hist _ _ _, ?_⟩
    cases tr with
    | none => rfl
    | some t =>
      show some (applyMove tokF (applyMove tokF t)) = some (applyMove tokF2 t)
      rw [applyMove_double_eq tokF2 (by decide) (by decide),
        show strHead1 tokF2 = tokF from by decide]
      simp only [applyMove_single_eq tokF (by decide) (by decide)]
  case mB2 =>
    refine ⟨history_take2 hist _ _ _, ?_⟩
    cases tr with
    | none => rfl
    | some t =>
      show some (applyMove tokB (applyMove tokB t)) = some (applyMove tokB2 t)
      rw [applyMove_double_eq tokB2 (by decide) (by decide),
        show strHead1 tokB2 = tokB from by decide]
      simp only [applyMove_single_eq tokB (by decide) (by decide)]
  case mM =>
    refine ⟨rfl, ?_⟩
    cases tr with
    | none => rfl
    | some t =>
      show some t = some (applyMove tokM t)
      rw [applyMove_single_eq tokM (by decide) (by decide),
        applySingleMove_none_eq tokM (by decide)]
  case mE =>
    refine ⟨rfl, ?_⟩
    cases tr with
    | none => rfl
    | some t =>
      show some t = some (applyMove tokE t)
      rw [applyMove_single_eq tokE (by decide) (by decide),
        applySingleMove_none_eq tokE (by decide)]
  case mS =>
    refine ⟨rfl, ?_⟩
    cases tr with
    | none => rfl
    | some t =>
      show some t = some (applyMove tokS t)
      rw [applyMove_single_eq tokS (by decide) (by decide),
        applySingleMove_none_eq tokS (by decide)]

theorem opApply_size (op : CubeOp) (c : RCube) : (opApply op c).size = c.size := by
  obtain ⟨sz, g, hist, tr⟩ := c
  cases op <;>
    first
      | rfl
      | (show (if sz < 3 then _ else _ : RCube).size = sz
         split_ifs <;> rfl)

theorem replayTracker_append (l : List String) (m : String) :
    replayTracker (l ++ [m]) = applyMove m (replayTracker l) := by
  unfold replayTracker
  rw [List.foldl_append]
  rfl

theorem trackerReplaysHistory (ops : List CubeOp) :
    (ops.foldl (fun c op => opApply op c) (createRCube 3)).tracker =
      some (replayTracker (ops.foldl (fun c op => opApply op c) (createRCube 3)).history) := by
  suffices h : ∀ (ops : List CubeOp) (c : RCube), c.size = 3 →
      c.tracker = some (replayTracker c.history) →
      ((ops.foldl (fun c op => opApply op c) c).size = 3 ∧
        (ops.foldl (fun c op => opApply op c) c).tracker =
          some (replayTracker (ops.foldl (fun c op => opApply op c) c).history)) by
    exact (h ops (createRCube 3) rfl rfl).2
  intro ops
  induction ops with
  | nil => exact fun c h1 h2 => ⟨h1, h2⟩
  | cons op ops ih =>
    intro c h1 h2
    refine ih (opApply op c) (by rw [opApply_size]; exact h1) ?_
    obtain ⟨hh, ht⟩ := opStepFull op c h1
    rw [ht, h2, hh, replayTracker_append]
    rfl


/-! ## Helper lemmas for the claims -/

theorem whiteEdgeTrap_loops (fuel : ℕ) :
    moveWhiteEdgeToPosition fuel whiteEdgeTrapLoc 0 whiteEdgeTrapState = none := by
  induction fuel with
  | zero => rfl
  | succ n ih =>
    show moveWhiteEdgeToPosition n whiteEdgeTrapLoc 0 whiteEdgeTrapState = none
    exact ih

theorem validateCubeState_none (c : RCube) (h : c.tracker = none) :
    validateCubeState c = (true, msgNoTracker) := by
  unfold validateCubeState
  rw [h]

theorem validateCubeState_some (c : RCube) (t : Tracker) (h : c.tracker = some t) :
    validateCubeState c =
      (match validateState t with
        | Except.ok _ => (true, msgStateValid)
        | Except.error e => (false, e)) := by
  unfold validateCubeState
  rw [h]

theorem validateState_error_msg (t : Tracker) (e : String)
    (hv : validateState t = Except.error e) :
    e = msgEdgeDup ∨ e = msgCornerDup ∨ e = msgEdgeParity ∨ e = msgCornerParity := by
  unfold validateState at hv
  split_ifs at hv
  · exact Or.inl (Except.error.inj hv).symm
  · exact Or.inr (Or.inl (Except.error.inj hv).symm)
  · exact Or.inr (Or.inr (Or.inl (Except.error.inj hv).symm))
  · exact Or.inr (Or.inr (Or.inr (Except.error.inj hv).symm))

theorem solverMoveLookup_M2 : solverMoveLookup tokM2 = none := by
  unfold solverMoveLookup
  rw [if_neg (show ¬(tokM2 = tokU) by decide)]
  rw [if_neg (show ¬(tokM2 = tokUp) by decide)]
  rw [if_neg (show ¬(tokM2 = tokU2) by decide)]
  rw [if_neg (show ¬(tokM2 = tokD) by decide)]
  rw [if_neg (show ¬(tokM2 = tokDp) by decide)]
  rw [if_neg (show ¬(tokM2 = tokD2) by decide)]
  rw [if_neg (show ¬(tokM2 = tokR) by decide)]
  rw [if_neg (show ¬(tokM2 = tokRp) by decide)]
  rw [if_neg (show ¬(tokM2 = tokR2) by decide)]
  rw [if_neg (show ¬(tokM2 = tokL) by decide)]
  rw [if_neg (show ¬(tokM2 = tokLp) by decide)]
  rw [if_neg (show ¬(tokM2 = tokL2) by decide)]
  rw [if_neg (show ¬(tokM2 = tokF) by decide)]
  rw [if_neg (show ¬(tokM2 = tokFp) by decide)]
  rw [if_neg (show ¬(tokM2 = tokF2) by decide)]
  rw [if_neg (show ¬(tokM2 = tokB) by decide)]
  rw [if_neg (show ¬(tokM2 = tokBp) by decide)]
  rw [if_neg (show ¬(tokM2 = tokB2) by decide)]

/-! ## The claims -/

/-- Claim C1, evaluated at the failing input: one application of
`_apply_single_move('U')` to the solved tracker leaves the piece in edge
slot 0 (UF) and the piece in corner slot 0 (UFR) fixed, and 3-cycles the
pieces of slots 1, 2, 3 (slot 1 receives slot 2's piece, and so on), instead
of moving all four listed slots in a single 4-cycle; every slot not listed in
the U move table is unchanged. -/
theorem claim_C1_single_U_is_three_cycle :
    ((applySingleMove tokU solvedTracker).edges 0 = solvedTracker.edges 0 ∧
      (applySingleMove tokU solvedTracker).edges 1 = solvedTracker.edges 2 ∧
      (applySingleMove tokU solvedTracker).edges 2 = solvedTracker.edges 3 ∧
      (applySingleMove tokU solvedTracker).edges 3 = solvedTracker.edges 1 ∧
      (applySingleMove tokU solvedTracker).edges 4 = solvedTracker.edges 4 ∧
      (applySingleMove tokU solvedTracker).edges 5 = solvedTracker.edges 5 ∧
      (applySingleMove tokU solvedTracker).edges 6 = solvedTracker.edges 6 ∧
      (applySingleMove tokU solvedTracker).edges 7 = solvedTracker.edges 7 ∧
      (applySingleMove tokU solvedTracker).edges 8 = solvedTracker.edges 8 ∧
      (applySingleMove tokU solvedTracker).edges 9 = solvedTracker.edges 9 ∧
      (applySingleMove tokU solvedTracker).edges 10 = solvedTracker.edges 10 ∧
      (applySingleMove tokU solvedTracker).edges 11 = solvedTracker.edges 11) ∧
    ((applySingleMove tokU solvedTracker).corners 0 = solvedTracker.corners 0 ∧
      (applySingleMove tokU solvedTracker).corners 1 = solvedTracker.corners 2 ∧
      (applySingleMove tokU solvedTracker).corners 2 = solvedTracker.corners 3 ∧
      (applySingleMove tokU solvedTracker).corners 3 = solvedTracker.corners 1 ∧
      (applySingleMove tokU solvedTracker).corners 4 = solvedTracker.corners 4 ∧
      (applySingleMove tokU solvedTracker).corners 5 = solvedTracker.corners 5 ∧
      (applySingleMove tokU solvedTracker).corners 6 = solvedTracker.corners 6 ∧
      (applySingleMove tokU solvedTracker).corners 7 = solvedTracker.corners 7) := by
  decide

/-- Claim C2: after every sequence of legal face-move tokens (base, prime and
double variants of U, D, R, L, F, B) applied from the solved state,
`validate_state` reports all three invariants holding — no duplicate or
missing position among the 12 edges and among the 8 corners, an even
edge-orientation sum, and a corner-orientation sum divisible by 3 — i.e. it
returns without raising. -/
theorem claim_C2_validate_after_legal_moves (ms : List (BaseTok × TokMod)) :
    validateState (ms.foldl (fun t p => applyMove (legalTokStr p.1 p.2) t) solvedTracker) =
      Except.ok () := by
  have key : ∀ (ms : List (BaseTok × TokMod)) (t : Tracker), TrackerInv t →
      TrackerInv (ms.foldl (fun t p => applyMove (legalTokStr p.1 p.2) t) t) := by
    intro ms
    induction ms with
    | nil => exact fun t h => h
    | cons p ps ih => exact fun t h => ih _ (applyMove_inv _ _ h)
  exact validateState_ok_of_inv _ (key ms solvedTracker solvedTracker_inv)

/-- Claim C3: on a 3x3 cube, every one of the 21 public move methods —
including the slice moves M, E and S — appends exactly one token to the move
history and changes the paired tracker exactly as applying that token to it
does (for M, E, S this is a no-op, which is also what forwarding the token
would do); consequently, after any sequence of moves the tracker equals the
recorded move history replayed on a solved tracker. -/
theorem claim_C3_history_and_tracker_sync :
    (∀ (op : CubeOp) (c : RCube), c.size = 3 →
      (opApply op c).history = c.history ++ [opToken op] ∧
        (opApply op c).tracker = c.tracker.map (applyMove (opToken op))) ∧
    (∀ ops : List CubeOp,
      (ops.foldl (fun c op => opApply op c) (createRCube 3)).tracker =
        some (replayTracker (ops.foldl (fun c op => opApply op c) (createRCube 3)).history)) :=
  ⟨opStepFull, trackerReplaysHistory⟩

/-- Claim C3 witness: the per-move statement instantiated at the M move on a
fresh 3x3 cube. -/
theorem claim_C3_witness :
    (createRCube 3).size = 3 ∧
    ((opApply CubeOp.mM (createRCube 3)).history =
        (createRCube 3).history ++ [opToken CubeOp.mM] ∧
      (opApply CubeOp.mM (createRCube 3)).tracker =
        (createRCube 3).tracker.map (applyMove (opToken CubeOp.mM))) :=
  ⟨rfl, claim_C3_history_and_tracker_sync.1 CubeOp.mM (createRCube 3) rfl⟩

/-- Claim C4, evaluated at the failing input: on the size-3 cube one `R` move
away from solved, applying `move_B` four times does not restore the grid — the
facelet UP[0][0] held color 4 and holds color 0 afterwards — and applying `B`
followed by `B'` does not restore it either.  (`move_B`'s strip cycle reverses
an odd number of strips, so four applications reverse the moved rows.) -/
theorem claim_C4_moveB_breaks_order4 :
    ((moveB (moveB (moveB (moveB rSolvedCube)))).grid Face.UP 0 0 = 0 ∧
      rSolvedCube.grid Face.UP 0 0 = 4) ∧
    ((moveBprime (moveB rSolvedCube)).grid Face.UP 0 0 = 0 ∧
      rSolvedCube.grid Face.UP 0 0 = 4) := by
  decide

/-- Claim C5, evaluated at the failing input: on the reachable 3x3 state
obtained by `U` then `L-prime` from solved, `solve()` never returns — for
every fuel bound the embedded solver yields `none`, because the white-cross
helper finds the target edge in the back-left middle slot, matches none of
its four extraction cases, and recurses on the unchanged state forever. -/
theorem claim_C5_solve_never_terminates (fuel : ℕ) :
    solveLBL fuel whiteEdgeTrapCube = none := by
  have h0 : whiteCrossStep fuel 0 whiteEdgeTrapState = none := by
    show moveWhiteEdgeToPosition fuel whiteEdgeTrapLoc 0 whiteEdgeTrapState = none
    exact whiteEdgeTrap_loops fuel
  have h1 : solveWhiteCross fuel whiteEdgeTrapState = none := by
    show Option.bind (whiteCrossStep fuel 0 whiteEdgeTrapState) _ = none
    rw [h0]
    rfl
  show Option.bind (solveWhiteCross fuel whiteEdgeTrapState) _ = none
  rw [h1]
  rfl

/-- Claim C6 counterexample: on the reachable input `M R L U` from solved (not
solved, so `solve` does not return early), phase 1 terminates with its
completion predicate false, and `solve` nevertheless hands phase 1's output
to phase 2 and the remaining phases — no predicate is re-checked between
phases. -/
theorem claim_C6_gate_counterexample :
    (solveWhiteCross 25 phaseGateState).map (fun s => whiteCrossComplete s.cube.grid) =
      some false ∧
    isSolvedCube phaseGateInput = false ∧
    solveLBL 25 phaseGateInput =
      ((solveWhiteCross 25 phaseGateState).bind fun s1 =>
        (solveWhiteCorners 25 s1).bind fun s2 =>
          some (permuteLastLayer (orientYellowCorners (solveYellowCross (solveMiddleLayer s2))))) :=
  ⟨by decide, by decide, rfl⟩

/-- Claim C6 (amended): the six phases run strictly sequentially in a fixed
order but unconditionally — each phase checks its completion predicate only
inside its own retry loop, and a phase whose predicate is still false when
its loop ends (as phase 1 is on the `M R L U` input) hands control to the
next phase anyway. -/
theorem claim_C6_phases_sequential_unconditional :
    (∀ (fuel : ℕ) (c : RCube),
      solveLBL fuel c =
        if isSolvedCube c then some ⟨c, []⟩
        else
          (solveWhiteCross fuel ⟨c, []⟩).bind fun s1 =>
            (solveWhiteCorners fuel s1).bind fun s2 =>
              some (permuteLastLayer (orientYellowCorners (solveYellowCross (solveMiddleLayer s2))))) ∧
    (solveWhiteCross 25 phaseGateState).map (fun s => whiteCrossComplete s.cube.grid) =
      some false :=
  ⟨fun fuel c => rfl, by decide⟩

/-- Claim C7 counterexample: no half-turn token is ever drawn by `scramble` —
the double tokens are not in its alphabet at any size. -/
theorem claim_C7_no_half_turns :
    tokU2 ∉ scrambleAlphabet 3 ∧ tokU2 ∉ scrambleAlphabet 2 ∧ tokR2 ∉ scrambleAlphabet 4 := by
  decide

/-- Claim C7 (amended): `scramble` draws its tokens from exactly the 12 face
quarter-turn tokens (clockwise and prime, no half turns), extended by the
slice tokens M, E, S exactly when the size is at least 3; every token of that
alphabet is recognized by the `execute_moves` move map, and `scramble` is
precisely `execute_moves` applied to the drawn tokens. -/
theorem claim_C7_alphabet_characterization :
    (∀ size : ℕ, ∀ m : String,
      m ∈ scrambleAlphabet size ↔
        (m ∈ [tokU, tokD, tokR, tokL, tokF, tokB, tokUp, tokDp, tokRp, tokLp, tokFp, tokBp] ∨
          (3 ≤ size ∧ m ∈ [tokM, tokE, tokS]))) ∧
    (∀ size : ℕ, (scrambleAlphabet size).all (fun m => (moveMapLookup m).isSome) = true) ∧
    (∀ (c : RCube) (picks : List (Fin (scrambleAlphabet c.size).length)),
      scramble c picks = executeMoves (picks.map fun p => (scrambleAlphabet c.size).get p) c) := by
  refine ⟨?_, ?_, fun c picks => rfl⟩
  · intro size m
    unfold scrambleAlphabet
    by_cases h : 3 ≤ size
    · rw [if_pos h, List.mem_append]
      constructor
      · rintro (h1 | h2)
        · exact Or.inl h1
        · exact Or.inr ⟨h, h2⟩
      · rintro (h1 | ⟨_, h2⟩)
        · exact Or.inl h1
        · exact Or.inr h2
    · rw [if_neg h, List.append_nil]
      constructor
      · exact fun h1 => Or.inl h1
      · rintro (h1 | ⟨h2, _⟩)
        · exact h1
        · exact absurd h2 h
  · intro size
    unfold scrambleAlphabet
    by_cases h : 3 ≤ size
    · rw [if_pos h]
      decide
    · rw [if_neg h]
      decide

/-- Claim C8: on every cube state, the validation entry point returns a
diagnostic pair and never propagates an error: with no tracker it reports
validity vacuously; with a tracker it either reports the state valid (exactly
when `validate_state` succeeds) or returns `false` together with the message
of the specific invariant that broke — one of the four `ValueError` messages
— rather than letting the error escape. -/
theorem claim_C8_validation_diagnostic (c : RCube) :
    (c.tracker = none ∧ validateCubeState c = (true, msgNoTracker)) ∨
    (∃ t, c.tracker = some t ∧
      ((validateState t = Except.ok () ∧ validateCubeState c = (true, msgStateValid)) ∨
        (∃ e, validateState t = Except.error e ∧ validateCubeState c = (false, e) ∧
          (e = msgEdgeDup ∨ e = msgCornerDup ∨ e = msgEdgeParity ∨ e = msgCornerParity)))) := by
  cases htr : c.tracker with
  | none => exact Or.inl ⟨rfl, validateCubeState_none c htr⟩
  | some t =>
    refine Or.inr ⟨t, rfl, ?_⟩
    have hvc := validateCubeState_some c t htr
    have hmsg := validateState_error_msg t
    generalize hv : validateState t = v at hvc hmsg ⊢
    cases v with
    | ok u =>
      cases u
      exact Or.inl ⟨rfl, by rw [hvc]⟩
    | error e =>
      exact Or.inr ⟨e, rfl, by rw [hvc], hmsg e rfl⟩

/-- Claim C9: for every cube of even size at least 4, each of the slice moves
M, E and S leaves every facelet of the grid unchanged while still appending
its token to the move history (and leaves the tracker untouched), so the
move history can grow without the grid changing. -/
theorem claim_C9_even_size_slice_noop (c : RCube) (heven : c.size % 2 = 0) (hge : 4 ≤ c.size) :
    ((moveM c).grid = c.grid ∧ (moveM c).history = c.history ++ [tokM] ∧
      (moveM c).tracker = c.tracker) ∧
    ((moveE c).grid = c.grid ∧ (moveE c).history = c.history ++ [tokE] ∧
      (moveE c).tracker = c.tracker) ∧
    ((moveS c).grid = c.grid ∧ (moveS c).history = c.history ++ [tokS] ∧
      (moveS c).tracker = c.tracker) := by
  have h3 : ¬ c.size < 3 := by omega
  have hodd : ¬ c.size % 2 = 1 := by omega
  simp [moveM, moveE, moveS, h3, hodd]

/-- Claim C9 witness: the statement instantiated at a fresh 4x4 cube. -/
theorem claim_C9_witness :
    ((createRCube 4).size % 2 = 0 ∧ 4 ≤ (createRCube 4).size) ∧
    (((moveM (createRCube 4)).grid = (createRCube 4).grid ∧
        (moveM (createRCube 4)).history = (createRCube 4).history ++ [tokM] ∧
        (moveM (createRCube 4)).tracker = (createRCube 4).tracker) ∧
      ((moveE (createRCube 4)).grid = (createRCube 4).grid ∧
        (moveE (createRCube 4)).history = (createRCube 4).history ++ [tokE] ∧
        (moveE (createRCube 4)).tracker = (createRCube 4).tracker) ∧
      ((moveS (createRCube 4)).grid = (createRCube 4).grid ∧
        (moveS (createRCube 4)).history = (createRCube 4).history ++ [tokS] ∧
        (moveS (createRCube 4)).tracker = (createRCube 4).tracker)) :=
  ⟨⟨by decide, by decide⟩,
    claim_C9_even_size_slice_noop (createRCube 4) (by decide) (by decide)⟩

/-- Claim C10: for every cube state, `_analyze_edge_permutation` returns only
`solved` or `adjacent`, never `opposite` — so the `opposite` branch of
`_permute_edges` (whose H-perm algorithm contains the token `M2`) is
unreachable — and `_execute_move` does not recognize `M2`: it leaves the
solver state unchanged. -/
theorem claim_C10_opposite_unreachable :
    (∀ g : Grid, analyzeEdgePermutation g = strSolved ∨ analyzeEdgePermutation g = strAdjacent) ∧
    (∀ g : Grid, analyzeEdgePermutation g ≠ strOpposite) ∧
    (∀ s : SolverState, execMove tokM2 s = s) := by
  refine ⟨?_, ?_, ?_⟩
  · intro g
    unfold analyzeEdgePermutation
    split_ifs
    · exact Or.inl rfl
    · exact Or.inr rfl
  · intro g h
    unfold analyzeEdgePermutation at h
    split_ifs at h
    · exact absurd h (by decide)
    · exact absurd h (by decide)
  · intro s
    unfold execMove
    rw [solverMoveLookup_M2]

end Rubiks
